import Mathlib

/-!
Shallow embedding of the songmatch repository's cross-platform track
resolution core (src/platform_matcher.py and src/songmatch.py).

Strings that flow through Python's `str.lower` (track titles and artist
names) are modelled as lists of Unicode code points (`PyStr`); ids,
platform tags, cache keys and error messages are modelled as Lean
`String`s.  Machine floats are modelled as `ℚ`; the similarity arithmetic
(`1 - distance / max_len` over small integer operands) is exact in both.
-/

/-- A Python string as a list of Unicode code points. -/
abbrev PyStr := List Nat

/-- Python `str.lower` on a single ASCII code point (the only case the track
titles exercised by the matcher rely on): uppercase letters 65..90 map to
97..122, everything else is unchanged. -/
def lowerChar (c : Nat) : Nat := if 65 ≤ c ∧ c ≤ 90 then c + 32 else c

/-- Python `str.lower` applied to a whole string. -/
def pyLower (s : PyStr) : PyStr := s.map lowerChar

/-- Levenshtein edit distance between two code-point strings, the metric
computed by `jellyfish.levenshtein_distance` in
`PlatformMatcher._calculate_similarity` (src/platform_matcher.py:146). -/
def lev : List Nat → List Nat → Nat
  | [], ys => ys.length
  | _ :: xs, [] => xs.length + 1
  | x :: xs, y :: ys =>
    if x = y then lev xs ys
    else 1 + min (lev xs (y :: ys)) (min (lev (x :: xs) ys) (lev xs ys))
termination_by xs ys => xs.length + ys.length
decreasing_by
  all_goals simp only [List.length_cons]; omega

/-- The body of `PlatformMatcher._calculate_similarity`
(src/platform_matcher.py:141-158), i.e. the code inside the `try:` block,
parametrised by the external distance routine (`jellyfish`); the routine is
fallible (`Except`) so the surrounding `except:` handler is observable. -/
def calcSimilarityBody (dist : PyStr → PyStr → Except String Nat)
    (str1 str2 : PyStr) : Except String ℚ := do
  let s1 := pyLower str1
  let s2 := pyLower str2
  let d ← dist s1 s2
  let maxLen := max s1.length s2.length
  if maxLen = 0 then
    return 0
  else
    return 1 - (d : ℚ) / (maxLen : ℚ)

/-- The function `PlatformMatcher._calculate_similarity` with an arbitrary distance
routine: the `except Exception: return 0.0` handler
(src/platform_matcher.py:160-164). -/
def calcSimilarityWith (dist : PyStr → PyStr → Except String Nat)
    (str1 str2 : PyStr) : ℚ :=
  match calcSimilarityBody dist str1 str2 with
  | .ok v => v
  | .error _ => 0

/-- The actual distance routine: `jellyfish.levenshtein_distance`, which
succeeds on every pair of strings. -/
def levDist (a b : PyStr) : Except String Nat := .ok (lev a b)

/-- The function `PlatformMatcher._calculate_similarity` as used by the matcher. -/
def calculate_similarity : PyStr → PyStr → ℚ := calcSimilarityWith levDist

/-- A search-result candidate as the metadata loop reads it: `id` via
`track.get("id")` (may be absent), title and artist via the platform's
`.get(...)` chains with `""` defaults
(src/platform_matcher.py:239-256, src/songmatch.py:254-279). -/
structure RawCand where
  id : Option String
  title : PyStr
  artist : PyStr
deriving Repr, DecidableEq

/-- The `best_match` dictionary kept by the metadata loop
(src/platform_matcher.py:256, src/songmatch.py:274-279). -/
structure BestMatch where
  id : Option String
  score : ℚ
deriving Repr, DecidableEq

/-- The score `total_score = (title_score + artist_score) / 2`
(src/platform_matcher.py:252, src/songmatch.py:270). -/
def candScore (sim : PyStr → PyStr → ℚ) (t a : PyStr) (c : RawCand) : ℚ :=
  (sim t c.title + sim a c.artist) / 2

/-- A candidate that is not skipped by
`if not track_title or not track_artist: continue`. -/
def scoredCand (c : RawCand) : Prop := c.title ≠ [] ∧ c.artist ≠ []

instance (c : RawCand) : Decidable (scoredCand c) := by
  unfold scoredCand; infer_instance

/-- The candidate loop of the metadata attempt, carrying the running
`best_match`/`best_score` pair (src/platform_matcher.py:236-256,
src/songmatch.py:244-279). -/
def findBestAux (sim : PyStr → PyStr → ℚ) (t a : PyStr) :
    List RawCand → Option BestMatch → ℚ → Option BestMatch
  | [], best, _ => best
  | c :: cs, best, bestScore =>
    if c.title = [] ∨ c.artist = [] then
      findBestAux sim t a cs best bestScore
    else
      if bestScore < candScore sim t a c then
        findBestAux sim t a cs (some ⟨c.id, candScore sim t a c⟩) (candScore sim t a c)
      else
        findBestAux sim t a cs best bestScore

/-- The function `MusicServiceMatcher._find_best_match` (src/songmatch.py:242-282) and
the identical inline loop of `PlatformMatcher.match_track_id`
(src/platform_matcher.py:236-264), parametrised by the similarity routine
(`_calculate_similarity` resp. a lowercased `jellyfish.jaro_winkler`):
run the loop from `best_match = None`, `best_score = 0`, then accept the
best candidate only when its score strictly exceeds `0.8`. -/
def find_best_match (sim : PyStr → PyStr → ℚ) (t a : PyStr)
    (cands : List RawCand) : Option BestMatch :=
  match findBestAux sim t a cands none 0 with
  | some b => if (0.8 : ℚ) < b.score then some b else none
  | none => none

/-- The `MatchResult` dataclass (src/platform_matcher.py:8-19,
src/songmatch.py:10-22; the URL entry point also carries `source_url`). -/
structure MatchResult where
  source_url : Option String := none
  source_id : String
  source_platform : String
  target_platform : String
  target_id : Option String := none
  target_url : Option String := none
  method_used : Option String := none
  match_score : Option ℚ := none
  error : Option String := none
  success : Bool := false
deriving Repr, DecidableEq

/-- The in-memory cache `self.cache`, a dict from `"platform:id"` keys to
a target id or the `None` no-match marker; insertion shadows. -/
abbrev Cache := List (String × Option String)

/-- Dict membership plus lookup: `self.cache[cache_key]`. -/
def cacheGet (cache : Cache) (k : String) : Option (Option String) :=
  (cache.find? (fun kv => kv.1 == k)).map (fun kv => kv.2)

/-- Dict assignment `self.cache[cache_key] = v`. -/
def cacheSet (cache : Cache) (k : String) (v : Option String) : Cache :=
  (k, v) :: cache

/-- The guard pair `if cache_key in self.cache:` / `if cached_id:`
(src/platform_matcher.py:179-181, src/songmatch.py:306-308): yields the
cached id only when the key is present AND its value is truthy (not the
`None` marker and not the empty string). -/
def cacheHit (cache : Cache) (k : String) : Option String :=
  match cacheGet cache k with
  | some (some cid) => if cid = "" then none else some cid
  | _ => none

/-- One outbound HTTP request, tagged by endpoint. -/
inductive NetCall
  | fetchSp (id : String)
  | fetchAp (id : String)
  | isrcSp (isrc : String)
  | isrcAp (isrc : String)
  | metaSp (title artist : PyStr)
  | metaAp (title artist : PyStr)
deriving Repr, DecidableEq

/-- One entry of a Spotify track's `artists` list. -/
structure SpArtist where
  name : Option PyStr
deriving Repr, DecidableEq

/-- A Spotify track payload as the source-extraction reads it:
`name`, `artists`, `external_ids.isrc`, each possibly absent
(src/platform_matcher.py:192-194, src/songmatch.py:322-324). -/
structure SpTrack where
  name : Option PyStr
  artists : Option (List SpArtist)
  isrc : Option String
deriving Repr, DecidableEq

/-- The `attributes` object of an Apple Music song entry. -/
structure AppleAttrs where
  name : Option PyStr
  artistName : Option PyStr
  isrc : Option String
deriving Repr, DecidableEq

/-- One entry of an Apple Music `data` list; `attributes` is read with a
direct index `['attributes']`, so it may be absent. -/
structure AppleEntry where
  attributes : Option AppleAttrs
deriving Repr, DecidableEq

/-- An Apple Music catalog response: `{"data": [...]}`. -/
structure AppleMeta where
  data : List AppleEntry
deriving Repr, DecidableEq

/-- A search response reduced to its candidate list (Spotify
`tracks.items`, Apple `data` resp. `results.songs.data`; an absent path
is the empty list). -/
structure SearchResp where
  items : List RawCand
deriving Repr, DecidableEq

/-- A candidate as the ISRC accept paths read it: `id` by direct index
`["id"]`, and the fields the URL resolver's success print direct-indexes
(`track['name']` and `track['artists'][0]['name']` for a Spotify target,
`track['attributes']['name']` and `track['attributes']['artistName']`
for an Apple target, src/songmatch.py:347,351) — `none` means the access
raises (`KeyError`/`IndexError`). -/
structure IsrcCand where
  id : Option String
  name : Option PyStr
  artistName : Option PyStr
deriving Repr, DecidableEq

/-- An ISRC search response reduced to its candidate list (Spotify
`tracks.items`, Apple `data`; an absent path is the empty list). -/
structure IsrcSearchResp where
  items : List IsrcCand
deriving Repr, DecidableEq

/-- The platform clients as the resolver sees them: each operation either
returns a parsed JSON payload or raises (modelled as `Except.error` with
the exception's message). -/
structure Client where
  fetchSpotify : String → Except String SpTrack
  fetchApple : String → Except String AppleMeta
  searchIsrcSpotify : String → Except String IsrcSearchResp
  searchIsrcApple : String → Except String IsrcSearchResp
  searchMetaSpotify : PyStr → PyStr → Except String SearchResp
  searchMetaApple : PyStr → PyStr → Except String SearchResp

/-- A resolver run's observables: the returned `MatchResult`, the cache
after the call, and the outbound network calls in order. -/
structure ResolveOut where
  result : MatchResult
  cache : Cache
  calls : List NetCall
deriving Repr, DecidableEq

/-- Spotify source extraction (src/platform_matcher.py:191-194,
src/songmatch.py:321-324): `metadata.get("name", "")`,
`metadata.get("artists", [{}])[0].get("name", "")` (an explicitly empty
`artists` list raises `IndexError`), `external_ids.get("isrc")`. -/
def spExtract (raw : SpTrack) : Except String (PyStr × PyStr × Option String) :=
  match raw.artists with
  | some [] => .error "list index out of range"
  | some (a :: _) => .ok (raw.name.getD [], a.name.getD [], raw.isrc)
  | none => .ok (raw.name.getD [], [], raw.isrc)

/-- Apple source extraction from the first `data` entry
(src/platform_matcher.py:199-202, src/songmatch.py:329-332): a missing
`attributes` key raises `KeyError`, inside it `.get` defaults apply. -/
def apAttrsExtract (e1 : AppleEntry) : Except String (PyStr × PyStr × Option String) :=
  match e1.attributes with
  | none => .error "KeyError: attributes"
  | some at1 => .ok (at1.name.getD [], at1.artistName.getD [], at1.isrc)

/-- The function `PlatformMatcher._get_track_metadata` plus the per-platform metadata
extraction of `match_track_id` (src/platform_matcher.py:45-72,188-202):
any platform other than `"spotify"` takes the `else:  # apple_music`
branches.  The Apple `data == []` case sets `"No track data found"`
directly; all other failures are the messages of raised exceptions — in
`match_track_id` both reach the same outer handler. -/
def sourceExtract (c : Client) (track_id source_platform : String) :
    Except String (PyStr × PyStr × Option String) :=
  if source_platform = "spotify" then
    match c.fetchSpotify track_id with
    | .error e => .error e
    | .ok raw => spExtract raw
  else
    match c.fetchApple track_id with
    | .error e => .error e
    | .ok raw =>
      match raw.data with
      | [] => .error "No track data found"
      | e1 :: _ => apAttrsExtract e1

/-- The choice `target_platform = "apple_music" if source_platform == "spotify" else
"spotify"` (src/platform_matcher.py:168, src/songmatch.py:291). -/
def targetOf (source_platform : String) : String :=
  if source_platform = "spotify" then "apple_music" else "spotify"

/-- The freshly initialised `MatchResult(...)`
(src/platform_matcher.py:170-174, src/songmatch.py:297-302). -/
def initResult (track_id source_platform : String) : MatchResult :=
  { source_id := track_id
    source_platform := source_platform
    target_platform := targetOf source_platform }

/-- The source-fetch request, per source platform. -/
def fetchCallOf (source_platform track_id : String) : NetCall :=
  if source_platform = "spotify" then .fetchSp track_id else .fetchAp track_id

/-- The ISRC-search request, per target platform. -/
def isrcCallOf (target_platform isr : String) : NetCall :=
  if target_platform = "spotify" then .isrcSp isr else .isrcAp isr

/-- The metadata-search request, per target platform. -/
def metaCallOf (target_platform : String) (title artist : PyStr) : NetCall :=
  if target_platform = "spotify" then .metaSp title artist else .metaAp title artist

/-- Dispatch of `search_by_isrc` to the target platform's client. -/
def isrcSearchOf (c : Client) (target_platform isr : String) :
    Except String IsrcSearchResp :=
  if target_platform = "spotify" then c.searchIsrcSpotify isr
  else c.searchIsrcApple isr

/-- Dispatch of `search_by_metadata` to the target platform's client. -/
def metaSearchOf (c : Client) (target_platform : String) (title artist : PyStr) :
    Except String SearchResp :=
  if target_platform = "spotify" then c.searchMetaSpotify title artist
  else c.searchMetaApple title artist

/-- The metadata-search fallback of `PlatformMatcher.match_track_id`
(src/platform_matcher.py:226-268): runs only when both title and artist
are truthy; a search exception reaches the outer handler (no cache
write); an accepted best match (score strictly above 0.8) is returned and
its (possibly absent) id written to the cache; otherwise the negative
marker `None` is written under the key. -/
def matchTrackIdMeta (c : Client) (base : MatchResult) (cache : Cache)
    (cache_key target_platform : String) (title artist : PyStr)
    (calls : List NetCall) : ResolveOut :=
  if title ≠ [] ∧ artist ≠ [] then
    match metaSearchOf c target_platform title artist with
    | .error e =>
      ⟨{ base with error := some e }, cache,
        calls ++ [metaCallOf target_platform title artist]⟩
    | .ok r =>
      match find_best_match calculate_similarity title artist r.items with
      | some b =>
        ⟨{ base with
            target_id := b.id
            method_used := some "metadata_match"
            match_score := some b.score
            success := true },
          cacheSet cache cache_key b.id,
          calls ++ [metaCallOf target_platform title artist]⟩
      | none =>
        ⟨{ base with error := some "No suitable match found" },
          cacheSet cache cache_key none,
          calls ++ [metaCallOf target_platform title artist]⟩
  else
    ⟨{ base with error := some "No suitable match found" },
      cacheSet cache cache_key none, calls⟩

/-- The function `PlatformMatcher.match_track_id` (src/platform_matcher.py:166-272):
cache check (only a truthy cached value short-circuits), source fetch and
extraction, ISRC attempt (the first candidate's id is taken by direct
index and accepted unconditionally; a search exception reaches the outer
handler and aborts), then the metadata fallback. -/
def match_track_id (c : Client) (track_id source_platform : String)
    (cache : Cache) : ResolveOut :=
  let target_platform := targetOf source_platform
  let base := initResult track_id source_platform
  let cache_key := source_platform ++ ":" ++ track_id
  match cacheHit cache cache_key with
  | some cid =>
    ⟨{ base with
        target_id := some cid
        method_used := some "cache"
        success := true }, cache, []⟩
  | none =>
    match sourceExtract c track_id source_platform with
    | .error e =>
      ⟨{ base with error := some e }, cache, [fetchCallOf source_platform track_id]⟩
    | .ok (title, artist, isrc) =>
      match isrc with
      | some isr =>
        match isrcSearchOf c target_platform isr with
        | .error e =>
          ⟨{ base with error := some e }, cache,
            [fetchCallOf source_platform track_id, isrcCallOf target_platform isr]⟩
        | .ok r =>
          match r.items with
          | cand :: _ =>
            (match cand.id with
             | none =>
               ⟨{ base with error := some "KeyError: id" }, cache,
                 [fetchCallOf source_platform track_id, isrcCallOf target_platform isr]⟩
             | some tid =>
               ⟨{ base with
                   target_id := some tid
                   method_used := some "isrc_match"
                   success := true },
                 cacheSet cache cache_key (some tid),
                 [fetchCallOf source_platform track_id, isrcCallOf target_platform isr]⟩)
          | [] =>
            matchTrackIdMeta c base cache cache_key target_platform title artist
              [fetchCallOf source_platform track_id, isrcCallOf target_platform isr]
      | none =>
        matchTrackIdMeta c base cache cache_key target_platform title artist
          [fetchCallOf source_platform track_id]

/-- The function `MusicServiceMatcher.create_target_url` (src/songmatch.py:234-240). -/
def mkTargetUrl (platform track_id : String) : String :=
  if platform = "spotify" then "https://open.spotify.com/track/" ++ track_id
  else "https://music.apple.com/us/song/" ++ track_id

/-- The `MatchResult(...)` initialised by `match_track`
(src/songmatch.py:296-302). -/
def initResultUrl (url source_platform source_id : String) : MatchResult :=
  { source_url := some url
    source_id := source_id
    source_platform := source_platform
    target_platform := targetOf source_platform }

/-- The metadata-search fallback of `MusicServiceMatcher.match_track`
(src/songmatch.py:364-391): a search exception is caught locally and
becomes `"Metadata search failed: ..."` (no cache write); an accepted
best match is returned (its possibly-absent id is also rendered into the
target URL, `None` printing as the string `"None"`); otherwise the
negative marker is written.  `preTarget` is the `result.target_id` value
possibly left behind by a falsy ISRC candidate id. -/
def matchTrackMeta (jw : PyStr → PyStr → ℚ) (c : Client) (base : MatchResult)
    (cache : Cache) (cache_key target_platform : String)
    (title artist : PyStr) (preTarget : Option String)
    (calls : List NetCall) : ResolveOut :=
  if title ≠ [] ∧ artist ≠ [] then
    match metaSearchOf c target_platform title artist with
    | .error e =>
      ⟨{ base with
          target_id := preTarget
          error := some ("Metadata search failed: " ++ e) }, cache,
        calls ++ [metaCallOf target_platform title artist]⟩
    | .ok r =>
      match find_best_match (fun x y => jw (pyLower x) (pyLower y)) title artist r.items with
      | some b =>
        ⟨{ base with
            target_id := b.id
            target_url := some (mkTargetUrl target_platform
              (match b.id with | some s => s | none => "None"))
            method_used := some "metadata_match"
            match_score := some b.score
            success := true },
          cacheSet cache cache_key b.id,
          calls ++ [metaCallOf target_platform title artist]⟩
      | none =>
        ⟨{ base with
            target_id := preTarget
            error := some "No suitable match found" },
          cacheSet cache cache_key none,
          calls ++ [metaCallOf target_platform title artist]⟩
  else
    ⟨{ base with
        target_id := preTarget
        error := some "No suitable match found" },
      cacheSet cache cache_key none, calls⟩

/-- The ISRC attempt of `MusicServiceMatcher.match_track`
(src/songmatch.py:337-362): guarded by its own try/except, so a search
exception falls through to the metadata attempt.  Within the block, in
order: `track["id"]` is read by direct index (a `KeyError` falls through
with the target unset); the success print then direct-indexes the
candidate's name and artist fields (src/songmatch.py:347,351 — a raise
here falls through with `result.target_id` already set); finally a
candidate id is accepted only when truthy (`if result.target_id:`), an
empty-string id falling through but staying on the result. -/
def matchTrackIsrc (jw : PyStr → PyStr → ℚ) (c : Client) (base : MatchResult)
    (cache : Cache) (cache_key target_platform : String)
    (title artist : PyStr) (isrc : Option String)
    (calls : List NetCall) : ResolveOut :=
  match isrc with
  | none => matchTrackMeta jw c base cache cache_key target_platform title artist none calls
  | some isr =>
    match isrcSearchOf c target_platform isr with
    | .error _ =>
      matchTrackMeta jw c base cache cache_key target_platform title artist none
        (calls ++ [isrcCallOf target_platform isr])
    | .ok r =>
      match r.items with
      | [] =>
        matchTrackMeta jw c base cache cache_key target_platform title artist none
          (calls ++ [isrcCallOf target_platform isr])
      | cand :: _ =>
        match cand.id with
        | none =>
          matchTrackMeta jw c base cache cache_key target_platform title artist none
            (calls ++ [isrcCallOf target_platform isr])
        | some tid =>
          if cand.name = none ∨ cand.artistName = none then
            matchTrackMeta jw c base cache cache_key target_platform title artist
              (some tid)
              (calls ++ [isrcCallOf target_platform isr])
          else if tid ≠ "" then
            ⟨{ base with
                target_id := some tid
                target_url := some (mkTargetUrl target_platform tid)
                method_used := some "isrc_match"
                success := true },
              cacheSet cache cache_key (some tid),
              calls ++ [isrcCallOf target_platform isr]⟩
          else
            matchTrackMeta jw c base cache cache_key target_platform title artist
              (some tid)
              (calls ++ [isrcCallOf target_platform isr])

/-- The function `MusicServiceMatcher.match_track` (src/songmatch.py:284-406) after URL
parsing: `jw` is the external `jellyfish.jaro_winkler`.  An unknown source
platform makes `getattr(self, source_platform)` raise `AttributeError`,
caught by the outermost handler; Spotify/Apple sources follow fetch,
extraction (failures become `"Failed to get source metadata: ..."`, an
empty Apple `data` list becomes its dedicated message), then the ISRC and
metadata attempts. -/
def match_track (jw : PyStr → PyStr → ℚ) (c : Client) (url : String)
    (source_platform source_id : String) (cache : Cache) : ResolveOut :=
  let target_platform := targetOf source_platform
  let base := initResultUrl url source_platform source_id
  let cache_key := source_platform ++ ":" ++ source_id
  match cacheHit cache cache_key with
  | some cid =>
    ⟨{ base with
        target_id := some cid
        target_url := some (mkTargetUrl target_platform cid)
        method_used := some "cache"
        success := true }, cache, []⟩
  | none =>
    if source_platform = "spotify" then
      match c.fetchSpotify source_id with
      | .error e =>
        ⟨{ base with error := some ("Failed to get source metadata: " ++ e) },
          cache, [NetCall.fetchSp source_id]⟩
      | .ok raw =>
        match spExtract raw with
        | .error e =>
          ⟨{ base with error := some ("Failed to get source metadata: " ++ e) },
            cache, [NetCall.fetchSp source_id]⟩
        | .ok (title, artist, isrc) =>
          matchTrackIsrc jw c base cache cache_key target_platform title artist isrc
            [NetCall.fetchSp source_id]
    else if source_platform = "apple_music" then
      match c.fetchApple source_id with
      | .error e =>
        ⟨{ base with error := some ("Failed to get source metadata: " ++ e) },
          cache, [NetCall.fetchAp source_id]⟩
      | .ok raw =>
        match raw.data with
        | [] =>
          ⟨{ base with error := some "No track data found in Apple Music response" },
            cache, [NetCall.fetchAp source_id]⟩
        | e1 :: _ =>
          match apAttrsExtract e1 with
          | .error e =>
            ⟨{ base with error := some ("Failed to get source metadata: " ++ e) },
              cache, [NetCall.fetchAp source_id]⟩
          | .ok (title, artist, isrc) =>
            matchTrackIsrc jw c base cache cache_key target_platform title artist isrc
              [NetCall.fetchAp source_id]
    else
      ⟨{ base with error := some ("AttributeError: " ++ source_platform) },
        cache, []⟩

/-- A Spotify source payload: title "h", artist "a", no ISRC. -/
def stubTrack : SpTrack := ⟨some [104], some [⟨some [97]⟩], none⟩

/-- A Spotify source payload: title "h", artist "a", ISRC "QQ1". -/
def stubTrackIsrc : SpTrack := ⟨some [104], some [⟨some [97]⟩], some "QQ1"⟩

/-- A client whose source fetch succeeds without ISRC and whose Apple
metadata search returns no candidates. -/
def noMatchClient : Client where
  fetchSpotify := fun _ => .ok stubTrack
  fetchApple := fun _ => .error "unused"
  searchIsrcSpotify := fun _ => .error "unused"
  searchIsrcApple := fun _ => .error "unused"
  searchMetaSpotify := fun _ _ => .error "unused"
  searchMetaApple := fun _ _ => .ok ⟨[]⟩

/-- A client whose Apple ISRC search returns one candidate with an
empty-string id. -/
def emptyIdIsrcClient : Client where
  fetchSpotify := fun _ => .ok stubTrackIsrc
  fetchApple := fun _ => .error "unused"
  searchIsrcSpotify := fun _ => .error "unused"
  searchIsrcApple := fun _ => .ok ⟨[⟨some "", some [104], some [97]⟩]⟩
  searchMetaSpotify := fun _ _ => .error "unused"
  searchMetaApple := fun _ _ => .ok ⟨[]⟩

/-- A client whose Apple ISRC search raises. -/
def isrcErrClient : Client where
  fetchSpotify := fun _ => .ok stubTrackIsrc
  fetchApple := fun _ => .error "unused"
  searchIsrcSpotify := fun _ => .error "unused"
  searchIsrcApple := fun _ => .error "isrc-down"
  searchMetaSpotify := fun _ _ => .error "unused"
  searchMetaApple := fun _ _ => .ok ⟨[]⟩

/-- A client whose Apple ISRC search returns one normal candidate. -/
def isrcOkClient : Client where
  fetchSpotify := fun _ => .ok stubTrackIsrc
  fetchApple := fun _ => .error "unused"
  searchIsrcSpotify := fun _ => .error "unused"
  searchIsrcApple := fun _ => .ok ⟨[⟨some "ap1", some [104], some [97]⟩]⟩
  searchMetaSpotify := fun _ _ => .error "unused"
  searchMetaApple := fun _ _ => .ok ⟨[]⟩

/-- A client whose Apple metadata search returns one perfectly matching
candidate that carries no id. -/
def noIdCandClient : Client where
  fetchSpotify := fun _ => .ok stubTrack
  fetchApple := fun _ => .error "unused"
  searchIsrcSpotify := fun _ => .error "unused"
  searchIsrcApple := fun _ => .error "unused"
  searchMetaSpotify := fun _ _ => .error "unused"
  searchMetaApple := fun _ _ => .ok ⟨[⟨none, [104], [97]⟩]⟩

/-- A client that fails every operation. -/
def errClient : Client where
  fetchSpotify := fun _ => .error "boom"
  fetchApple := fun _ => .error "boom-ap"
  searchIsrcSpotify := fun _ => .error "boom"
  searchIsrcApple := fun _ => .error "boom"
  searchMetaSpotify := fun _ _ => .error "boom"
  searchMetaApple := fun _ _ => .error "boom"

theorem lowerChar_idem (c : Nat) : lowerChar (lowerChar c) = lowerChar c := by
  unfold lowerChar
  split
  · rename_i h
    rw [if_neg]
    omega
  · rfl

theorem pyLower_idem (s : PyStr) : pyLower (pyLower s) = pyLower s := by
  unfold pyLower
  rw [List.map_map]
  apply List.map_congr_left
  intro c _
  exact lowerChar_idem c

theorem pyLower_length (s : PyStr) : (pyLower s).length = s.length := by
  unfold pyLower
  exact List.length_map s lowerChar

theorem lev_nil_left (ys : List Nat) : lev [] ys = ys.length := by
  cases ys <;> simp [lev]

theorem lev_nil_right (xs : List Nat) : lev xs [] = xs.length := by
  cases xs <;> simp [lev]

theorem lev_self (xs : List Nat) : lev xs xs = 0 := by
  induction xs with
  | nil => simp [lev]
  | cons x xs ih => simp [lev, ih]

theorem lev_comm (xs ys : List Nat) : lev xs ys = lev ys xs := by
  induction xs, ys using lev.induct with
  | case1 ys => rw [lev_nil_left, lev_nil_right]
  | case2 x xs => rw [lev_nil_left, lev_nil_right]
  | case3 xs y ys ih =>
    rw [lev, lev, if_pos rfl, if_pos rfl, ih]
  | case4 x xs y ys h ih1 ih2 ih3 =>
    rw [lev, lev, if_neg h, if_neg (fun hc => h hc.symm), ih1, ih2, ih3]
    rw [Nat.min_left_comm]

theorem lev_le_max (xs ys : List Nat) : lev xs ys ≤ max xs.length ys.length := by
  induction xs, ys using lev.induct with
  | case1 ys => rw [lev_nil_left]; simp
  | case2 x xs => rw [lev_nil_right]; simp
  | case3 xs y ys ih =>
    rw [lev, if_pos rfl]
    simp only [List.length_cons]
    omega
  | case4 x xs y ys h ih1 ih2 ih3 =>
    rw [lev, if_neg h]
    simp only [List.length_cons]
    have hm : min (lev xs (y :: ys)) (min (lev (x :: xs) ys) (lev xs ys)) ≤ lev xs ys :=
      le_trans (Nat.min_le_right _ _) (Nat.min_le_right _ _)
    omega

theorem calculate_similarity_eq (a b : PyStr) :
    calculate_similarity a b =
      (if max (pyLower a).length (pyLower b).length = 0 then 0
       else 1 - (lev (pyLower a) (pyLower b) : ℚ) /
         (max (pyLower a).length (pyLower b).length : ℚ)) := by
  by_cases h : max (pyLower a).length (pyLower b).length = 0
  · simp [calculate_similarity, calcSimilarityWith, calcSimilarityBody, levDist,
      bind, Except.bind, pure, Except.pure, h]
  · simp [calculate_similarity, calcSimilarityWith, calcSimilarityBody, levDist,
      bind, Except.bind, pure, Except.pure, h]

/-- Exhaustive characterisation of the candidate loop: either no scored
candidate strictly beats the incoming best score and the accumulator is
returned unchanged, or the result is the first-seen maximum among the
scored candidates that strictly beats the incoming score. -/
theorem findBestAux_cases (sim : PyStr → PyStr → ℚ) (t a : PyStr) :
    ∀ (cs : List RawCand) (best : Option BestMatch) (bs : ℚ),
      (findBestAux sim t a cs best bs = best ∧
        ∀ i (h : i < cs.length), scoredCand (cs.get ⟨i, h⟩) →
          candScore sim t a (cs.get ⟨i, h⟩) ≤ bs)
      ∨ (∃ i, ∃ h : i < cs.length,
          scoredCand (cs.get ⟨i, h⟩) ∧
          findBestAux sim t a cs best bs =
            some ⟨(cs.get ⟨i, h⟩).id, candScore sim t a (cs.get ⟨i, h⟩)⟩ ∧
          bs < candScore sim t a (cs.get ⟨i, h⟩) ∧
          (∀ j (hj : j < cs.length), j < i → scoredCand (cs.get ⟨j, hj⟩) →
            candScore sim t a (cs.get ⟨j, hj⟩) < candScore sim t a (cs.get ⟨i, h⟩)) ∧
          (∀ j (hj : j < cs.length), scoredCand (cs.get ⟨j, hj⟩) →
            candScore sim t a (cs.get ⟨j, hj⟩) ≤ candScore sim t a (cs.get ⟨i, h⟩))) := by
  intro cs
  induction cs with
  | nil =>
    intro best bs
    left
    refine ⟨rfl, ?_⟩
    intro i h
    exact absurd h (by simp)
  | cons c cs ih =>
    intro best bs
    by_cases hsk : c.title = [] ∨ c.artist = []
    · rw [findBestAux, if_pos hsk]
      have hns : ¬ scoredCand c := by
        unfold scoredCand
        rcases hsk with h | h <;> simp [h]
      rcases ih best bs with ⟨heq, hle⟩ | ⟨i, h, hsc, heq, hgt, hlt, hmax⟩
      · left
        refine ⟨heq, ?_⟩
        intro i h hs
        match i with
        | 0 =>
          exact absurd hs hns
        | Nat.succ i =>
          simp only [List.get_cons_succ] at hs ⊢
          exact hle i _ hs
      · right
        refine ⟨i + 1, by simpa using h, ?_⟩
        simp only [List.get_cons_succ]
        refine ⟨hsc, heq, hgt, ?_, ?_⟩
        · intro j hj hji hjs
          match j with
          | 0 =>
            exact absurd hjs hns
          | Nat.succ j =>
            simp only [List.get_cons_succ] at hjs ⊢
            exact hlt j _ (by omega) hjs
        · intro j hj hjs
          match j with
          | 0 =>
            exact absurd hjs hns
          | Nat.succ j =>
            simp only [List.get_cons_succ] at hjs ⊢
            exact hmax j _ hjs
    · have hs0 : scoredCand c := by
        unfold scoredCand
        push_neg at hsk
        exact hsk
      rw [findBestAux, if_neg hsk]
      by_cases hbeat : bs < candScore sim t a c
      · rw [if_pos hbeat]
        rcases ih (some ⟨c.id, candScore sim t a c⟩) (candScore sim t a c) with
          ⟨heq, hle⟩ | ⟨i, h, hsc, heq, hgt, hlt, hmax⟩
        · right
          refine ⟨0, by simp, ?_⟩
          refine ⟨hs0, heq, hbeat, ?_, ?_⟩
          · intro j hj hji
            omega
          · intro j hj hjs
            match j with
            | 0 => exact le_refl _
            | Nat.succ j =>
              simp only [List.get_cons_succ] at hjs ⊢
              exact hle j _ hjs
        · right
          refine ⟨i + 1, by simpa using h, ?_⟩
          simp only [List.get_cons_succ]
          refine ⟨hsc, heq, lt_trans hbeat hgt, ?_, ?_⟩
          · intro j hj hji hjs
            match j with
            | 0 => exact hgt
            | Nat.succ j =>
              simp only [List.get_cons_succ] at hjs ⊢
              exact hlt j _ (by omega) hjs
          · intro j hj hjs
            match j with
            | 0 => exact le_of_lt hgt
            | Nat.succ j =>
              simp only [List.get_cons_succ] at hjs ⊢
              exact hmax j _ hjs
      · rw [if_neg hbeat]
        push_neg at hbeat
        rcases ih best bs with ⟨heq, hle⟩ | ⟨i, h, hsc, heq, hgt, hlt, hmax⟩
        · left
          refine ⟨heq, ?_⟩
          intro i h hs
          match i with
          | 0 => simpa using hbeat
          | Nat.succ i =>
            simp only [List.get_cons_succ] at hs ⊢
            exact hle i _ hs
        · right
          refine ⟨i + 1, by simpa using h, ?_⟩
          simp only [List.get_cons_succ]
          refine ⟨hsc, heq, hgt, ?_, ?_⟩
          · intro j hj hji hjs
            match j with
            | 0 => exact lt_of_le_of_lt hbeat hgt
            | Nat.succ j =>
              simp only [List.get_cons_succ] at hjs ⊢
              exact hlt j _ (by omega) hjs
          · intro j hj hjs
            match j with
            | 0 => exact le_trans hbeat (le_of_lt hgt)
            | Nat.succ j =>
              simp only [List.get_cons_succ] at hjs ⊢
              exact hmax j _ hjs

theorem scoredCand_of_mem {cs : List RawCand} (hc : ∀ c ∈ cs, scoredCand c)
    {i : Nat} (h : i < cs.length) : scoredCand (cs.get ⟨i, h⟩) :=
  hc _ (cs.get_mem i h)

/-- Full specification of the metadata candidate selection: when all
candidates carry a non-empty title and artist, the loop returns `some m`
exactly when `m` is the first-seen maximum-scoring candidate and its score
strictly exceeds `0.8`. -/
theorem find_best_match_spec (sim : PyStr → PyStr → ℚ) (t a : PyStr)
    (cs : List RawCand) (hc : ∀ c ∈ cs, scoredCand c) (m : BestMatch) :
    find_best_match sim t a cs = some m ↔
      ∃ i, ∃ h : i < cs.length,
        m = ⟨(cs.get ⟨i, h⟩).id, candScore sim t a (cs.get ⟨i, h⟩)⟩ ∧
        (0.8 : ℚ) < candScore sim t a (cs.get ⟨i, h⟩) ∧
        (∀ j (hj : j < cs.length), j < i →
          candScore sim t a (cs.get ⟨j, hj⟩) < candScore sim t a (cs.get ⟨i, h⟩)) ∧
        (∀ j (hj : j < cs.length),
          candScore sim t a (cs.get ⟨j, hj⟩) ≤ candScore sim t a (cs.get ⟨i, h⟩)) := by
  rcases findBestAux_cases sim t a cs none 0 with ⟨heq, hle⟩ | ⟨i, h, _, heq, _, hlt, hmax⟩
  · have hres : find_best_match sim t a cs = none := by
      unfold find_best_match
      rw [heq]
    rw [hres]
    constructor
    · intro hcontra
      exact absurd hcontra (by simp)
    · rintro ⟨i, hi, _, hthr, _, _⟩
      have hz := hle i hi (scoredCand_of_mem hc hi)
      have : (0.8 : ℚ) < 0 := lt_of_lt_of_le hthr hz
      norm_num at this
  · have hres : find_best_match sim t a cs =
        if (0.8 : ℚ) < candScore sim t a (cs.get ⟨i, h⟩) then
          some ⟨(cs.get ⟨i, h⟩).id, candScore sim t a (cs.get ⟨i, h⟩)⟩
        else none := by
      unfold find_best_match
      rw [heq]
    rw [hres]
    by_cases hthr : (0.8 : ℚ) < candScore sim t a (cs.get ⟨i, h⟩)
    · constructor
      · intro hsome
        rw [if_pos hthr] at hsome
        refine ⟨i, h, (Option.some.inj hsome).symm, hthr, ?_, ?_⟩
        · intro j hj hji
          exact hlt j hj hji (scoredCand_of_mem hc hj)
        · intro j hj
          exact hmax j hj (scoredCand_of_mem hc hj)
      · rintro ⟨i2, h2, hm, hthr2, hlt2, hmax2⟩
        rw [if_pos hthr]
        have hii : i = i2 := by
          rcases lt_trichotomy i i2 with hcmp | hcmp | hcmp
          · have h1 := hlt2 i h hcmp
            have h2b := hmax i2 h2 (scoredCand_of_mem hc h2)
            exact absurd (lt_of_le_of_lt h2b h1) (lt_irrefl _)
          · exact hcmp
          · have h1 := hlt i2 h2 hcmp (scoredCand_of_mem hc h2)
            have h2b := hmax2 i h
            exact absurd (lt_of_le_of_lt h2b h1) (lt_irrefl _)
        subst hii
        rw [hm]
    · constructor
      · intro hsome
        rw [if_neg hthr] at hsome
        exact absurd hsome (by simp)
      · rintro ⟨i2, h2, _, hthr2, hlt2, hmax2⟩
        have hii : i = i2 := by
          rcases lt_trichotomy i i2 with hcmp | hcmp | hcmp
          · have h1 := hlt2 i h hcmp
            have h2b := hmax i2 h2 (scoredCand_of_mem hc h2)
            exact absurd (lt_of_le_of_lt h2b h1) (lt_irrefl _)
          · exact hcmp
          · have h1 := hlt i2 h2 hcmp (scoredCand_of_mem hc h2)
            have h2b := hmax2 i h
            exact absurd (lt_of_le_of_lt h2b h1) (lt_irrefl _)
        subst hii
        exact absurd hthr2 hthr

theorem calculate_similarity_comm (a b : PyStr) :
    calculate_similarity a b = calculate_similarity b a := by
  rw [calculate_similarity_eq, calculate_similarity_eq, lev_comm,
    Nat.max_comm (pyLower a).length (pyLower b).length,
    max_comm ((pyLower a).length : ℚ) ((pyLower b).length : ℚ)]

theorem calculate_similarity_self (a : PyStr) (h : a ≠ []) :
    calculate_similarity a a = 1 := by
  have hl : ¬ (pyLower a).length = 0 := by
    rw [pyLower_length]
    simpa using h
  rw [calculate_similarity_eq, lev_self, max_self, if_neg hl]
  simp

theorem calculate_similarity_empty : calculate_similarity [] [] = 0 := by
  rfl

theorem calculate_similarity_range (a b : PyStr) :
    0 ≤ calculate_similarity a b ∧ calculate_similarity a b ≤ 1 := by
  rw [calculate_similarity_eq]
  by_cases h : max (pyLower a).length (pyLower b).length = 0
  · rw [if_pos h]
    norm_num
  · rw [if_neg h]
    have hm : (0 : ℚ) < (max (pyLower a).length (pyLower b).length : ℚ) := by
      exact_mod_cast Nat.pos_of_ne_zero h
    have hd : (lev (pyLower a) (pyLower b) : ℚ) ≤
        (max (pyLower a).length (pyLower b).length : ℚ) := by
      exact_mod_cast lev_le_max (pyLower a) (pyLower b)
    have h1 : (lev (pyLower a) (pyLower b) : ℚ) /
        (max (pyLower a).length (pyLower b).length : ℚ) ≤ 1 :=
      (div_le_one hm).mpr hd
    have h2 : (0 : ℚ) ≤ (lev (pyLower a) (pyLower b) : ℚ) /
        (max (pyLower a).length (pyLower b).length : ℚ) :=
      div_nonneg (by positivity) (le_of_lt hm)
    constructor <;> linarith

theorem calculate_similarity_lower (a b : PyStr) :
    calculate_similarity (pyLower a) (pyLower b) = calculate_similarity a b := by
  unfold calculate_similarity calcSimilarityWith calcSimilarityBody
  rw [pyLower_idem, pyLower_idem]

/-- C4: The similarity scorer used for candidate comparison
(`PlatformMatcher._calculate_similarity`) is case-insensitive
(lower-casing either input does not change the result), symmetric,
yields `1.0` on any non-empty string compared with itself, yields `0.0`
on two empty strings, and always lies in `[0, 1]`. -/
theorem C4_similarity_scorer_properties :
    (∀ a b : PyStr, calculate_similarity a b = calculate_similarity b a) ∧
    (∀ a : PyStr, a ≠ [] → calculate_similarity a a = 1) ∧
    calculate_similarity [] [] = 0 ∧
    (∀ a b : PyStr, 0 ≤ calculate_similarity a b ∧ calculate_similarity a b ≤ 1) ∧
    (∀ a b : PyStr,
      calculate_similarity (pyLower a) (pyLower b) = calculate_similarity a b) :=
  ⟨calculate_similarity_comm, calculate_similarity_self,
   calculate_similarity_empty, calculate_similarity_range,
   calculate_similarity_lower⟩

/-- Witness for C4: the non-empty-self conjunct applied to the code
points of "Hi". -/
theorem C4_witness : calculate_similarity [72, 105] [72, 105] = 1 :=
  C4_similarity_scorer_properties.2.1 [72, 105] (by decide)

theorem findBestAux_zero_sim (sim : PyStr → PyStr → ℚ)
    (hz : ∀ x y, sim x y = 0) (t a : PyStr) (cs : List RawCand) :
    findBestAux sim t a cs none 0 = none := by
  induction cs with
  | nil => rfl
  | cons c cs ih =>
    rw [findBestAux]
    split
    · exact ih
    · rw [if_neg (by unfold candScore; rw [hz, hz]; norm_num)]
      exact ih

/-- C5: the scorer never propagates an internal failure — when the body
of `_calculate_similarity` raises, the handler returns `0.0` instead; in
particular a distance routine that fails on every input drives the whole
metadata matching loop to completion (returning "no candidate") rather
than aborting it. -/
theorem C5_similarity_failure_returns_zero :
    (∀ (dist : PyStr → PyStr → Except String Nat) (a b : PyStr) (e : String),
      calcSimilarityBody dist a b = .error e → calcSimilarityWith dist a b = 0) ∧
    (∀ dist : PyStr → PyStr → Except String Nat,
      (∀ x y, ∃ e, dist x y = .error e) →
      ∀ (t a : PyStr) (cs : List RawCand),
        find_best_match (calcSimilarityWith dist) t a cs = none) := by
  constructor
  · intro dist a b e he
    unfold calcSimilarityWith
    rw [he]
  · intro dist hd t a cs
    have hz : ∀ x y, calcSimilarityWith dist x y = 0 := by
      intro x y
      obtain ⟨e, he⟩ := hd (pyLower x) (pyLower y)
      simp [calcSimilarityWith, calcSimilarityBody, he, bind, Except.bind]
    unfold find_best_match
    rw [findBestAux_zero_sim _ hz]

/-- Witness for C5: a distance routine that always raises. -/
theorem C5_witness :
    calcSimilarityWith (fun _ _ => .error "TypeError") [97] [98] = 0 ∧
    find_best_match (calcSimilarityWith (fun _ _ => .error "TypeError"))
      [97] [98] [⟨some "c1", [99], [100]⟩] = none :=
  ⟨C5_similarity_failure_returns_zero.1 (fun _ _ => .error "TypeError")
     [97] [98] "TypeError" rfl,
   C5_similarity_failure_returns_zero.2 (fun _ _ => .error "TypeError")
     (fun _ _ => ⟨"TypeError", rfl⟩) [97] [98] [⟨some "c1", [99], [100]⟩]⟩

/-- C3: in the metadata attempt each candidate's score is the average of
the title and artist similarities; the retained candidate is the
maximum-scoring one with first-seen winning ties (strictly-greater
comparison), and it is accepted exactly when its score strictly exceeds
`0.8` (an exact `0.8` is rejected).  Stated for candidate lists whose
entries all carry a non-empty title and artist (others are skipped by the
loop). -/
theorem C3_metadata_scoring_and_selection (sim : PyStr → PyStr → ℚ)
    (t a : PyStr) (cs : List RawCand) (hc : ∀ c ∈ cs, scoredCand c) :
    (∀ c : RawCand, candScore sim t a c = (sim t c.title + sim a c.artist) / 2) ∧
    (∀ m : BestMatch, find_best_match sim t a cs = some m ↔
      ∃ i, ∃ h : i < cs.length,
        m = ⟨(cs.get ⟨i, h⟩).id, candScore sim t a (cs.get ⟨i, h⟩)⟩ ∧
        (0.8 : ℚ) < candScore sim t a (cs.get ⟨i, h⟩) ∧
        (∀ j (hj : j < cs.length), j < i →
          candScore sim t a (cs.get ⟨j, hj⟩) < candScore sim t a (cs.get ⟨i, h⟩)) ∧
        (∀ j (hj : j < cs.length),
          candScore sim t a (cs.get ⟨j, hj⟩) ≤ candScore sim t a (cs.get ⟨i, h⟩))) :=
  ⟨fun _ => rfl, find_best_match_spec sim t a cs hc⟩

/-- Witness for C3: a single perfectly matching candidate is selected
with score 1. -/
theorem C3_witness :
    find_best_match calculate_similarity [104] [105] [⟨some "x1", [104], [105]⟩] =
      some ⟨some "x1", 1⟩ := by
  have hfull := C3_metadata_scoring_and_selection calculate_similarity [104] [105]
    [⟨some "x1", [104], [105]⟩]
    (by intro c hcm; rw [List.mem_singleton] at hcm; subst hcm; decide)
  have hsc : candScore calculate_similarity [104] [105]
      (⟨some "x1", [104], [105]⟩ : RawCand) = 1 := by
    unfold candScore
    rw [calculate_similarity_self [104] (by decide),
      calculate_similarity_self [105] (by decide)]
    norm_num
  refine (hfull.2 ⟨some "x1", 1⟩).mpr ⟨0, by decide, ?_, ?_, ?_, ?_⟩
  · show (⟨some "x1", 1⟩ : BestMatch) =
      ⟨some "x1", candScore calculate_similarity [104] [105]
        (⟨some "x1", [104], [105]⟩ : RawCand)⟩
    rw [hsc]
  · show (0.8 : ℚ) < candScore calculate_similarity [104] [105]
      (⟨some "x1", [104], [105]⟩ : RawCand)
    rw [hsc]
    norm_num
  · intro j hj hji
    exact absurd hji (Nat.not_lt_zero j)
  · intro j hj
    have hj0 : j = 0 := by
      simp only [List.length_singleton] at hj
      omega
    subst hj0
    exact le_refl _

/-- Exhaustive case analysis of the metadata fallback of
`match_track_id`. -/
theorem matchTrackIdMeta_cases (c : Client) (base : MatchResult) (cache : Cache)
    (ck tp : String) (title artist : PyStr) (calls : List NetCall) :
    (¬(title ≠ [] ∧ artist ≠ []) ∧
      matchTrackIdMeta c base cache ck tp title artist calls =
        ⟨{ base with error := some "No suitable match found" },
          cacheSet cache ck none, calls⟩) ∨
    ((title ≠ [] ∧ artist ≠ []) ∧
      ∃ e, metaSearchOf c tp title artist = .error e ∧
        matchTrackIdMeta c base cache ck tp title artist calls =
          ⟨{ base with error := some e }, cache,
            calls ++ [metaCallOf tp title artist]⟩) ∨
    ((title ≠ [] ∧ artist ≠ []) ∧
      ∃ r b, metaSearchOf c tp title artist = .ok r ∧
        find_best_match calculate_similarity title artist r.items = some b ∧
        matchTrackIdMeta c base cache ck tp title artist calls =
          ⟨{ base with
              target_id := b.id
              method_used := some "metadata_match"
              match_score := some b.score
              success := true },
            cacheSet cache ck b.id, calls ++ [metaCallOf tp title artist]⟩) ∨
    ((title ≠ [] ∧ artist ≠ []) ∧
      ∃ r, metaSearchOf c tp title artist = .ok r ∧
        find_best_match calculate_similarity title artist r.items = none ∧
        matchTrackIdMeta c base cache ck tp title artist calls =
          ⟨{ base with error := some "No suitable match found" },
            cacheSet cache ck none, calls ++ [metaCallOf tp title artist]⟩) := by
  unfold matchTrackIdMeta
  by_cases hta : title ≠ [] ∧ artist ≠ []
  · rw [if_pos hta]
    cases hse : metaSearchOf c tp title artist with
    | error e =>
      dsimp only
      right; left
      exact ⟨hta, e, rfl, rfl⟩
    | ok r =>
      dsimp only
      cases hfb : find_best_match calculate_similarity title artist r.items with
      | some b =>
        dsimp only
        right; right; left
        exact ⟨hta, r, b, rfl, hfb, rfl⟩
      | none =>
        dsimp only
        right; right; right
        exact ⟨hta, r, rfl, hfb, rfl⟩
  · rw [if_neg hta]
    left
    exact ⟨hta, rfl⟩

/-- Exhaustive case analysis of `match_track_id`. -/
theorem match_track_id_cases (c : Client) (tid p : String) (cache : Cache) :
    (∃ cid, cacheHit cache (p ++ ":" ++ tid) = some cid ∧
      match_track_id c tid p cache =
        ⟨{ initResult tid p with
            target_id := some cid
            method_used := some "cache"
            success := true }, cache, []⟩) ∨
    (cacheHit cache (p ++ ":" ++ tid) = none ∧
      ∃ e, sourceExtract c tid p = .error e ∧
        match_track_id c tid p cache =
          ⟨{ initResult tid p with error := some e }, cache, [fetchCallOf p tid]⟩) ∨
    (cacheHit cache (p ++ ":" ++ tid) = none ∧
      ∃ title artist isr e, sourceExtract c tid p = .ok (title, artist, some isr) ∧
        isrcSearchOf c (targetOf p) isr = .error e ∧
        match_track_id c tid p cache =
          ⟨{ initResult tid p with error := some e }, cache,
            [fetchCallOf p tid, isrcCallOf (targetOf p) isr]⟩) ∨
    (cacheHit cache (p ++ ":" ++ tid) = none ∧
      ∃ title artist isr r cand rest,
        sourceExtract c tid p = .ok (title, artist, some isr) ∧
        isrcSearchOf c (targetOf p) isr = .ok r ∧
        r.items = cand :: rest ∧ cand.id = none ∧
        match_track_id c tid p cache =
          ⟨{ initResult tid p with error := some "KeyError: id" }, cache,
            [fetchCallOf p tid, isrcCallOf (targetOf p) isr]⟩) ∨
    (cacheHit cache (p ++ ":" ++ tid) = none ∧
      ∃ title artist isr r cand rest t2,
        sourceExtract c tid p = .ok (title, artist, some isr) ∧
        isrcSearchOf c (targetOf p) isr = .ok r ∧
        r.items = cand :: rest ∧ cand.id = some t2 ∧
        match_track_id c tid p cache =
          ⟨{ initResult tid p with
              target_id := some t2
              method_used := some "isrc_match"
              success := true },
            cacheSet cache (p ++ ":" ++ tid) (some t2),
            [fetchCallOf p tid, isrcCallOf (targetOf p) isr]⟩) ∨
    (cacheHit cache (p ++ ":" ++ tid) = none ∧
      ∃ title artist isr r,
        sourceExtract c tid p = .ok (title, artist, some isr) ∧
        isrcSearchOf c (targetOf p) isr = .ok r ∧
        r.items = [] ∧
        match_track_id c tid p cache =
          matchTrackIdMeta c (initResult tid p) cache (p ++ ":" ++ tid)
            (targetOf p) title artist
            [fetchCallOf p tid, isrcCallOf (targetOf p) isr]) ∨
    (cacheHit cache (p ++ ":" ++ tid) = none ∧
      ∃ title artist,
        sourceExtract c tid p = .ok (title, artist, none) ∧
        match_track_id c tid p cache =
          matchTrackIdMeta c (initResult tid p) cache (p ++ ":" ++ tid)
            (targetOf p) title artist [fetchCallOf p tid]) := by
  unfold match_track_id
  dsimp only
  cases hch : cacheHit cache (p ++ ":" ++ tid) with
  | some cid =>
    dsimp only
    left
    exact ⟨cid, rfl, rfl⟩
  | none =>
    dsimp only
    cases hsx : sourceExtract c tid p with
    | error e =>
      dsimp only
      right; left
      exact ⟨rfl, e, rfl, rfl⟩
    | ok triple =>
      dsimp only
      obtain ⟨title, artist, isrc⟩ := triple
      dsimp only
      cases isrc with
      | some isr =>
        dsimp only
        cases hisrc : isrcSearchOf c (targetOf p) isr with
        | error e =>
          dsimp only
          right; right; left
          exact ⟨rfl, title, artist, isr, e, rfl, hisrc, rfl⟩
        | ok r =>
          dsimp only
          cases hitems : r.items with
          | cons cand rest =>
            dsimp only
            cases hcid : cand.id with
            | none =>
              dsimp only
              right; right; right; left
              exact ⟨rfl, title, artist, isr, r, cand, rest, rfl, hisrc, hitems, hcid, rfl⟩
            | some t2 =>
              dsimp only
              right; right; right; right; left
              exact ⟨rfl, title, artist, isr, r, cand, rest, t2, rfl, hisrc, hitems, hcid, rfl⟩
          | nil =>
            dsimp only
            right; right; right; right; right; left
            exact ⟨rfl, title, artist, isr, r, rfl, hisrc, hitems, rfl⟩
      | none =>
        dsimp only
        right; right; right; right; right; right
        exact ⟨rfl, title, artist, rfl, rfl⟩

/-- Exhaustive case analysis of the metadata fallback of `match_track`. -/
theorem matchTrackMeta_cases (jw : PyStr → PyStr → ℚ) (c : Client)
    (base : MatchResult) (cache : Cache) (ck tp : String)
    (title artist : PyStr) (pre : Option String) (calls : List NetCall) :
    (¬(title ≠ [] ∧ artist ≠ []) ∧
      matchTrackMeta jw c base cache ck tp title artist pre calls =
        ⟨{ base with
            target_id := pre
            error := some "No suitable match found" },
          cacheSet cache ck none, calls⟩) ∨
    ((title ≠ [] ∧ artist ≠ []) ∧
      ∃ e, metaSearchOf c tp title artist = .error e ∧
        matchTrackMeta jw c base cache ck tp title artist pre calls =
          ⟨{ base with
              target_id := pre
              error := some ("Metadata search failed: " ++ e) }, cache,
            calls ++ [metaCallOf tp title artist]⟩) ∨
    ((title ≠ [] ∧ artist ≠ []) ∧
      ∃ r b, metaSearchOf c tp title artist = .ok r ∧
        find_best_match (fun x y => jw (pyLower x) (pyLower y)) title artist r.items =
          some b ∧
        matchTrackMeta jw c base cache ck tp title artist pre calls =
          ⟨{ base with
              target_id := b.id
              target_url := some (mkTargetUrl tp
                (match b.id with | some s => s | none => "None"))
              method_used := some "metadata_match"
              match_score := some b.score
              success := true },
            cacheSet cache ck b.id, calls ++ [metaCallOf tp title artist]⟩) ∨
    ((title ≠ [] ∧ artist ≠ []) ∧
      ∃ r, metaSearchOf c tp title artist = .ok r ∧
        find_best_match (fun x y => jw (pyLower x) (pyLower y)) title artist r.items =
          none ∧
        matchTrackMeta jw c base cache ck tp title artist pre calls =
          ⟨{ base with
              target_id := pre
              error := some "No suitable match found" },
            cacheSet cache ck none, calls ++ [metaCallOf tp title artist]⟩) := by
  unfold matchTrackMeta
  by_cases hta : title ≠ [] ∧ artist ≠ []
  · rw [if_pos hta]
    cases hse : metaSearchOf c tp title artist with
    | error e =>
      dsimp only
      right; left
      exact ⟨hta, e, rfl, rfl⟩
    | ok r =>
      dsimp only
      cases hfb : find_best_match (fun x y => jw (pyLower x) (pyLower y)) title artist
          r.items with
      | some b =>
        dsimp only
        right; right; left
        exact ⟨hta, r, b, rfl, hfb, rfl⟩
      | none =>
        dsimp only
        right; right; right
        exact ⟨hta, r, rfl, hfb, rfl⟩
  · rw [if_neg hta]
    left
    exact ⟨hta, rfl⟩

/-- Exhaustive case analysis of the ISRC attempt of `match_track`. -/
theorem matchTrackIsrc_cases (jw : PyStr → PyStr → ℚ) (c : Client)
    (base : MatchResult) (cache : Cache) (ck tp : String)
    (title artist : PyStr) (isrc : Option String) (calls : List NetCall) :
    (isrc = none ∧
      matchTrackIsrc jw c base cache ck tp title artist isrc calls =
        matchTrackMeta jw c base cache ck tp title artist none calls) ∨
    (∃ isr e, isrc = some isr ∧ isrcSearchOf c tp isr = .error e ∧
      matchTrackIsrc jw c base cache ck tp title artist isrc calls =
        matchTrackMeta jw c base cache ck tp title artist none
          (calls ++ [isrcCallOf tp isr])) ∨
    (∃ isr r, isrc = some isr ∧ isrcSearchOf c tp isr = .ok r ∧ r.items = [] ∧
      matchTrackIsrc jw c base cache ck tp title artist isrc calls =
        matchTrackMeta jw c base cache ck tp title artist none
          (calls ++ [isrcCallOf tp isr])) ∨
    (∃ isr r cand rest, isrc = some isr ∧ isrcSearchOf c tp isr = .ok r ∧
      r.items = cand :: rest ∧ cand.id = none ∧
      matchTrackIsrc jw c base cache ck tp title artist isrc calls =
        matchTrackMeta jw c base cache ck tp title artist none
          (calls ++ [isrcCallOf tp isr])) ∨
    (∃ isr r cand rest t2, isrc = some isr ∧ isrcSearchOf c tp isr = .ok r ∧
      r.items = cand :: rest ∧ cand.id = some t2 ∧
      (cand.name = none ∨ cand.artistName = none) ∧
      matchTrackIsrc jw c base cache ck tp title artist isrc calls =
        matchTrackMeta jw c base cache ck tp title artist (some t2)
          (calls ++ [isrcCallOf tp isr])) ∨
    (∃ isr r cand rest t2, isrc = some isr ∧ isrcSearchOf c tp isr = .ok r ∧
      r.items = cand :: rest ∧ cand.id = some t2 ∧
      cand.name ≠ none ∧ cand.artistName ≠ none ∧ t2 ≠ "" ∧
      matchTrackIsrc jw c base cache ck tp title artist isrc calls =
        ⟨{ base with
            target_id := some t2
            target_url := some (mkTargetUrl tp t2)
            method_used := some "isrc_match"
            success := true },
          cacheSet cache ck (some t2), calls ++ [isrcCallOf tp isr]⟩) ∨
    (∃ isr r cand rest, isrc = some isr ∧ isrcSearchOf c tp isr = .ok r ∧
      r.items = cand :: rest ∧ cand.id = some "" ∧
      cand.name ≠ none ∧ cand.artistName ≠ none ∧
      matchTrackIsrc jw c base cache ck tp title artist isrc calls =
        matchTrackMeta jw c base cache ck tp title artist (some "")
          (calls ++ [isrcCallOf tp isr])) := by
  unfold matchTrackIsrc
  cases isrc with
  | none =>
    left
    exact ⟨rfl, rfl⟩
  | some isr =>
    dsimp only
    cases hisrc : isrcSearchOf c tp isr with
    | error e =>
      dsimp only
      right; left
      exact ⟨isr, e, rfl, hisrc, rfl⟩
    | ok r =>
      dsimp only
      cases hitems : r.items with
      | nil =>
        dsimp only
        right; right; left
        exact ⟨isr, r, rfl, hisrc, hitems, rfl⟩
      | cons cand rest =>
        dsimp only
        cases hcid : cand.id with
        | none =>
          dsimp only
          right; right; right; left
          exact ⟨isr, r, cand, rest, rfl, hisrc, hitems, hcid, rfl⟩
        | some t2 =>
          dsimp only
          by_cases hpr : cand.name = none ∨ cand.artistName = none
          · rw [if_pos hpr]
            right; right; right; right; left
            exact ⟨isr, r, cand, rest, t2, rfl, hisrc, hitems, hcid, hpr, rfl⟩
          · rw [if_neg hpr]
            push_neg at hpr
            by_cases ht : t2 ≠ ""
            · rw [if_pos ht]
              right; right; right; right; right; left
              exact ⟨isr, r, cand, rest, t2, rfl, hisrc, hitems, hcid, hpr.1, hpr.2,
                ht, rfl⟩
            · rw [if_neg ht]
              push_neg at ht
              subst ht
              right; right; right; right; right; right
              exact ⟨isr, r, cand, rest, rfl, hisrc, hitems, hcid, hpr.1, hpr.2, rfl⟩

/-- Exhaustive case analysis of `match_track`. -/
theorem match_track_cases (jw : PyStr → PyStr → ℚ) (c : Client)
    (url p sid : String) (cache : Cache) :
    (∃ cid, cacheHit cache (p ++ ":" ++ sid) = some cid ∧
      match_track jw c url p sid cache =
        ⟨{ initResultUrl url p sid with
            target_id := some cid
            target_url := some (mkTargetUrl (targetOf p) cid)
            method_used := some "cache"
            success := true }, cache, []⟩) ∨
    (cacheHit cache (p ++ ":" ++ sid) = none ∧ p ≠ "spotify" ∧ p ≠ "apple_music" ∧
      match_track jw c url p sid cache =
        ⟨{ initResultUrl url p sid with
            error := some ("AttributeError: " ++ p) }, cache, []⟩) ∨
    (cacheHit cache (p ++ ":" ++ sid) = none ∧ p = "spotify" ∧
      ∃ e, c.fetchSpotify sid = .error e ∧
        match_track jw c url p sid cache =
          ⟨{ initResultUrl url p sid with
              error := some ("Failed to get source metadata: " ++ e) }, cache,
            [NetCall.fetchSp sid]⟩) ∨
    (cacheHit cache (p ++ ":" ++ sid) = none ∧ p = "spotify" ∧
      ∃ raw e, c.fetchSpotify sid = .ok raw ∧ spExtract raw = .error e ∧
        match_track jw c url p sid cache =
          ⟨{ initResultUrl url p sid with
              error := some ("Failed to get source metadata: " ++ e) }, cache,
            [NetCall.fetchSp sid]⟩) ∨
    (cacheHit cache (p ++ ":" ++ sid) = none ∧ p = "spotify" ∧
      ∃ raw title artist isrc, c.fetchSpotify sid = .ok raw ∧
        spExtract raw = .ok (title, artist, isrc) ∧
        match_track jw c url p sid cache =
          matchTrackIsrc jw c (initResultUrl url p sid) cache (p ++ ":" ++ sid)
            (targetOf p) title artist isrc [NetCall.fetchSp sid]) ∨
    (cacheHit cache (p ++ ":" ++ sid) = none ∧ p = "apple_music" ∧
      ∃ e, c.fetchApple sid = .error e ∧
        match_track jw c url p sid cache =
          ⟨{ initResultUrl url p sid with
              error := some ("Failed to get source metadata: " ++ e) }, cache,
            [NetCall.fetchAp sid]⟩) ∨
    (cacheHit cache (p ++ ":" ++ sid) = none ∧ p = "apple_music" ∧
      ∃ raw, c.fetchApple sid = .ok raw ∧ raw.data = [] ∧
        match_track jw c url p sid cache =
          ⟨{ initResultUrl url p sid with
              error := some "No track data found in Apple Music response" }, cache,
            [NetCall.fetchAp sid]⟩) ∨
    (cacheHit cache (p ++ ":" ++ sid) = none ∧ p = "apple_music" ∧
      ∃ raw e1 drest e, c.fetchApple sid = .ok raw ∧ raw.data = e1 :: drest ∧
        apAttrsExtract e1 = .error e ∧
        match_track jw c url p sid cache =
          ⟨{ initResultUrl url p sid with
              error := some ("Failed to get source metadata: " ++ e) }, cache,
            [NetCall.fetchAp sid]⟩) ∨
    (cacheHit cache (p ++ ":" ++ sid) = none ∧ p = "apple_music" ∧
      ∃ raw e1 drest title artist isrc, c.fetchApple sid = .ok raw ∧
        raw.data = e1 :: drest ∧ apAttrsExtract e1 = .ok (title, artist, isrc) ∧
        match_track jw c url p sid cache =
          matchTrackIsrc jw c (initResultUrl url p sid) cache (p ++ ":" ++ sid)
            (targetOf p) title artist isrc [NetCall.fetchAp sid]) := by
  unfold match_track
  dsimp only
  cases hch : cacheHit cache (p ++ ":" ++ sid) with
  | some cid =>
    dsimp only
    left
    exact ⟨cid, rfl, rfl⟩
  | none =>
    dsimp only
    by_cases hsp : p = "spotify"
    · rw [if_pos hsp]
      subst hsp
      cases hf : c.fetchSpotify sid with
      | error e =>
        dsimp only
        right; right; left
        exact ⟨rfl, rfl, e, rfl, rfl⟩
      | ok raw =>
        dsimp only
        cases hx : spExtract raw with
        | error e =>
          dsimp only
          right; right; right; left
          exact ⟨rfl, rfl, raw, e, rfl, hx, rfl⟩
        | ok triple =>
          dsimp only
          obtain ⟨title, artist, isrc⟩ := triple
          right; right; right; right; left
          exact ⟨rfl, rfl, raw, title, artist, isrc, rfl, hx, rfl⟩
    · rw [if_neg hsp]
      by_cases hap : p = "apple_music"
      · rw [if_pos hap]
        subst hap
        cases hf : c.fetchApple sid with
        | error e =>
          dsimp only
          right; right; right; right; right; left
          exact ⟨rfl, rfl, e, rfl, rfl⟩
        | ok raw =>
          dsimp only
          cases hdata : raw.data with
          | nil =>
            dsimp only
            right; right; right; right; right; right; left
            exact ⟨rfl, rfl, raw, rfl, hdata, rfl⟩
          | cons e1 drest =>
            dsimp only
            cases hx : apAttrsExtract e1 with
            | error e =>
              dsimp only
              right; right; right; right; right; right; right; left
              exact ⟨rfl, rfl, raw, e1, drest, e, rfl, hdata, hx, rfl⟩
            | ok triple =>
              dsimp only
              obtain ⟨title, artist, isrc⟩ := triple
              right; right; right; right; right; right; right; right
              exact ⟨rfl, rfl, raw, e1, drest, title, artist, isrc, rfl, hdata, hx, rfl⟩
      · rw [if_neg hap]
        right; left
        exact ⟨rfl, hsp, hap, rfl⟩

theorem cacheGet_set_self (cache : Cache) (k : String) (v : Option String) :
    cacheGet (cacheSet cache k v) k = some v := by
  simp [cacheGet, cacheSet, List.find?]

theorem cacheHit_set_pos (cache : Cache) (k t : String) (h : t ≠ "") :
    cacheHit (cacheSet cache k (some t)) k = some t := by
  unfold cacheHit
  rw [cacheGet_set_self]
  dsimp only
  rw [if_neg h]

/-- A truthy cache hit short-circuits `match_track_id`
(src/platform_matcher.py:177-185). -/
theorem match_track_id_cache_hit (c : Client) (tid p : String) (cache : Cache)
    (cid : String) (h : cacheHit cache (p ++ ":" ++ tid) = some cid) :
    match_track_id c tid p cache =
      ⟨{ initResult tid p with
          target_id := some cid
          method_used := some "cache"
          success := true }, cache, []⟩ := by
  unfold match_track_id
  dsimp only
  rw [h]

/-- A truthy cache hit short-circuits `match_track`
(src/songmatch.py:304-313). -/
theorem match_track_cache_hit (jw : PyStr → PyStr → ℚ) (c : Client)
    (url p sid : String) (cache : Cache) (cid : String)
    (h : cacheHit cache (p ++ ":" ++ sid) = some cid) :
    match_track jw c url p sid cache =
      ⟨{ initResultUrl url p sid with
          target_id := some cid
          target_url := some (mkTargetUrl (targetOf p) cid)
          method_used := some "cache"
          success := true }, cache, []⟩ := by
  unfold match_track
  dsimp only
  rw [h]

/-- The id of an accepted metadata best match is the id of one of the
search candidates. -/
theorem find_best_match_id_mem (sim : PyStr → PyStr → ℚ) (t a : PyStr)
    (cs : List RawCand) (b : BestMatch)
    (h : find_best_match sim t a cs = some b) :
    ∃ cand ∈ cs, b.id = cand.id := by
  rcases findBestAux_cases sim t a cs none 0 with ⟨heq, _⟩ | ⟨i, hi, _, heq, _, _, _⟩
  · have hres : find_best_match sim t a cs = none := by
      unfold find_best_match
      rw [heq]
    rw [hres] at h
    exact absurd h (by simp)
  · have hres : find_best_match sim t a cs =
        if (0.8 : ℚ) < candScore sim t a (cs.get ⟨i, hi⟩) then
          some ⟨(cs.get ⟨i, hi⟩).id, candScore sim t a (cs.get ⟨i, hi⟩)⟩
        else none := by
      unfold find_best_match
      rw [heq]
    rw [hres] at h
    split at h
    · refine ⟨cs.get ⟨i, hi⟩, cs.get_mem i hi, ?_⟩
      rw [← Option.some.inj h]
    · exact absurd h (by simp)

/-- The metadata fallback of `match_track_id` preserves the base result
except in its own fields, and its result and calls do not depend on the
cache key. -/
theorem matchTrackIdMeta_result_calls (c : Client) (A : MatchResult) (p : String)
    (cache : Cache) (ck1 ck2 tp : String) (t a : PyStr) (calls : List NetCall) :
    (matchTrackIdMeta c { A with source_platform := p } cache ck1 tp t a calls).result =
      { (matchTrackIdMeta c A cache ck2 tp t a calls).result with source_platform := p } ∧
    (matchTrackIdMeta c { A with source_platform := p } cache ck1 tp t a calls).calls =
      (matchTrackIdMeta c A cache ck2 tp t a calls).calls ∧
    (matchTrackIdMeta c { A with source_platform := p } cache ck1 tp t a calls).result.target_platform =
      A.target_platform := by
  unfold matchTrackIdMeta
  by_cases hta : t ≠ [] ∧ a ≠ []
  · simp only [if_pos hta]
    cases metaSearchOf c tp t a with
    | error e =>
      dsimp only
      exact ⟨rfl, rfl, rfl⟩
    | ok r =>
      dsimp only
      cases find_best_match calculate_similarity t a r.items with
      | some b =>
        dsimp only
        exact ⟨rfl, rfl, rfl⟩
      | none =>
        dsimp only
        exact ⟨rfl, rfl, rfl⟩
  · simp only [if_neg hta]
    exact ⟨trivial, trivial, trivial⟩

/-- Success/target/error analysis of the metadata fallback of
`match_track_id` over a base result that is not yet successful. -/
theorem matchTrackIdMeta_success_iff (c : Client) (base : MatchResult)
    (cache : Cache) (ck tp : String) (t a : PyStr) (calls : List NetCall)
    (hb : base.success = false) (he : base.error = none)
    (hwf : ∀ t2 a2 r, metaSearchOf c tp t2 a2 = .ok r →
      ∀ cand ∈ r.items, cand.id ≠ none) :
    ((matchTrackIdMeta c base cache ck tp t a calls).result.success = true ↔
      (matchTrackIdMeta c base cache ck tp t a calls).result.target_id ≠ none ∧
      (matchTrackIdMeta c base cache ck tp t a calls).result.error = none) := by
  rcases matchTrackIdMeta_cases c base cache ck tp t a calls with
    ⟨_, hout⟩ | ⟨_, e, hse, hout⟩ | ⟨_, r, b, hse, hfb, hout⟩ | ⟨_, r, hse, hfb, hout⟩
  · rw [hout]
    simp [hb]
  · rw [hout]
    simp [hb]
  · rw [hout]
    obtain ⟨cand, hmem, hbid⟩ := find_best_match_id_mem _ _ _ _ _ hfb
    have hid : cand.id ≠ none := hwf t a r hse cand hmem
    simp [he, hbid, hid]
  · rw [hout]
    simp [hb]

/-- Success/target/error analysis of the metadata fallback of
`match_track` over a base result that is not yet successful. -/
theorem matchTrackMeta_success_iff (jw : PyStr → PyStr → ℚ) (c : Client)
    (base : MatchResult) (cache : Cache) (ck tp : String) (t a : PyStr)
    (pre : Option String) (calls : List NetCall)
    (hb : base.success = false) (he : base.error = none)
    (hwf : ∀ t2 a2 r, metaSearchOf c tp t2 a2 = .ok r →
      ∀ cand ∈ r.items, cand.id ≠ none) :
    ((matchTrackMeta jw c base cache ck tp t a pre calls).result.success = true ↔
      (matchTrackMeta jw c base cache ck tp t a pre calls).result.target_id ≠ none ∧
      (matchTrackMeta jw c base cache ck tp t a pre calls).result.error = none) := by
  rcases matchTrackMeta_cases jw c base cache ck tp t a pre calls with
    ⟨_, hout⟩ | ⟨_, e, hse, hout⟩ | ⟨_, r, b, hse, hfb, hout⟩ | ⟨_, r, hse, hfb, hout⟩
  · rw [hout]
    simp [hb]
  · rw [hout]
    simp [hb]
  · rw [hout]
    obtain ⟨cand, hmem, hbid⟩ := find_best_match_id_mem _ _ _ _ _ hfb
    have hid : cand.id ≠ none := hwf t a r hse cand hmem
    simp [he, hbid, hid]
  · rw [hout]
    simp [hb]

/-- Success/target/error analysis of the ISRC attempt of `match_track`. -/
theorem matchTrackIsrc_success_iff (jw : PyStr → PyStr → ℚ) (c : Client)
    (base : MatchResult) (cache : Cache) (ck tp : String) (t a : PyStr)
    (isrc : Option String) (calls : List NetCall)
    (hb : base.success = false) (he : base.error = none)
    (hwf : ∀ t2 a2 r, metaSearchOf c tp t2 a2 = .ok r →
      ∀ cand ∈ r.items, cand.id ≠ none) :
    ((matchTrackIsrc jw c base cache ck tp t a isrc calls).result.success = true ↔
      (matchTrackIsrc jw c base cache ck tp t a isrc calls).result.target_id ≠ none ∧
      (matchTrackIsrc jw c base cache ck tp t a isrc calls).result.error = none) := by
  rcases matchTrackIsrc_cases jw c base cache ck tp t a isrc calls with
    ⟨_, hout⟩ | ⟨isr, e, _, hse, hout⟩ | ⟨isr, r, _, hse, hit, hout⟩ |
    ⟨isr, r, cand, rest, _, hse, hit, hcid, hout⟩ |
    ⟨isr, r, cand, rest, t2, _, hse, hit, hcid, hpr, hout⟩ |
    ⟨isr, r, cand, rest, t2, _, hse, hit, hcid, hn, han, ht2, hout⟩ |
    ⟨isr, r, cand, rest, _, hse, hit, hcid, hn, han, hout⟩
  · rw [hout]
    exact matchTrackMeta_success_iff jw c base cache ck tp t a none calls hb he hwf
  · rw [hout]
    exact matchTrackMeta_success_iff jw c base cache ck tp t a none _ hb he hwf
  · rw [hout]
    exact matchTrackMeta_success_iff jw c base cache ck tp t a none _ hb he hwf
  · rw [hout]
    exact matchTrackMeta_success_iff jw c base cache ck tp t a none _ hb he hwf
  · rw [hout]
    exact matchTrackMeta_success_iff jw c base cache ck tp t a (some t2) _ hb he hwf
  · rw [hout]
    simp [he]
  · rw [hout]
    exact matchTrackMeta_success_iff jw c base cache ck tp t a (some "") _ hb he hwf

/-- When the metadata fallback of `match_track_id` succeeds, it has
written its (possibly absent) target id under the cache key. -/
theorem matchTrackIdMeta_success_cache (c : Client) (base : MatchResult)
    (cache : Cache) (ck tp : String) (t a : PyStr) (calls : List NetCall)
    (hb : base.success = false) :
    (matchTrackIdMeta c base cache ck tp t a calls).result.success = true →
    (matchTrackIdMeta c base cache ck tp t a calls).cache =
      cacheSet cache ck
        ((matchTrackIdMeta c base cache ck tp t a calls).result.target_id) := by
  rcases matchTrackIdMeta_cases c base cache ck tp t a calls with
    ⟨_, hout⟩ | ⟨_, e, _, hout⟩ | ⟨_, r, b, _, _, hout⟩ | ⟨_, r, _, _, hout⟩
  · rw [hout]
    intro hs
    simp [hb] at hs
  · rw [hout]
    intro hs
    simp [hb] at hs
  · rw [hout]
    intro _
    rfl
  · rw [hout]
    intro hs
    simp [hb] at hs

/-- When the metadata fallback of `match_track` succeeds, it has written
its (possibly absent) target id under the cache key. -/
theorem matchTrackMeta_success_cache (jw : PyStr → PyStr → ℚ) (c : Client)
    (base : MatchResult) (cache : Cache) (ck tp : String) (t a : PyStr)
    (pre : Option String) (calls : List NetCall)
    (hb : base.success = false) :
    (matchTrackMeta jw c base cache ck tp t a pre calls).result.success = true →
    (matchTrackMeta jw c base cache ck tp t a pre calls).cache =
      cacheSet cache ck
        ((matchTrackMeta jw c base cache ck tp t a pre calls).result.target_id) := by
  rcases matchTrackMeta_cases jw c base cache ck tp t a pre calls with
    ⟨_, hout⟩ | ⟨_, e, _, hout⟩ | ⟨_, r, b, _, _, hout⟩ | ⟨_, r, _, _, hout⟩
  · rw [hout]
    intro hs
    simp [hb] at hs
  · rw [hout]
    intro hs
    simp [hb] at hs
  · rw [hout]
    intro _
    rfl
  · rw [hout]
    intro hs
    simp [hb] at hs

/-- When the ISRC attempt of `match_track` (including its metadata
fallback) succeeds, the target id has been written under the cache key. -/
theorem matchTrackIsrc_success_cache (jw : PyStr → PyStr → ℚ) (c : Client)
    (base : MatchResult) (cache : Cache) (ck tp : String) (t a : PyStr)
    (isrc : Option String) (calls : List NetCall)
    (hb : base.success = false) :
    (matchTrackIsrc jw c base cache ck tp t a isrc calls).result.success = true →
    (matchTrackIsrc jw c base cache ck tp t a isrc calls).cache =
      cacheSet cache ck
        ((matchTrackIsrc jw c base cache ck tp t a isrc calls).result.target_id) := by
  rcases matchTrackIsrc_cases jw c base cache ck tp t a isrc calls with
    ⟨_, hout⟩ | ⟨isr, e, _, _, hout⟩ | ⟨isr, r, _, _, _, hout⟩ |
    ⟨isr, r, cand, rest, _, _, _, _, hout⟩ |
    ⟨isr, r, cand, rest, t2, _, _, _, _, _, hout⟩ |
    ⟨isr, r, cand, rest, t2, _, _, _, _, _, _, _, hout⟩ |
    ⟨isr, r, cand, rest, _, _, _, _, _, _, hout⟩
  · rw [hout]
    exact matchTrackMeta_success_cache jw c base cache ck tp t a none _ hb
  · rw [hout]
    exact matchTrackMeta_success_cache jw c base cache ck tp t a none _ hb
  · rw [hout]
    exact matchTrackMeta_success_cache jw c base cache ck tp t a none _ hb
  · rw [hout]
    exact matchTrackMeta_success_cache jw c base cache ck tp t a none _ hb
  · rw [hout]
    exact matchTrackMeta_success_cache jw c base cache ck tp t a (some t2) _ hb
  · rw [hout]
    intro _
    rfl
  · rw [hout]
    exact matchTrackMeta_success_cache jw c base cache ck tp t a (some "") _ hb

/-- After a successful `match_track_id` run with a truthy target id, the
cache yields a hit for the key. -/
theorem match_track_id_success_hit (c : Client) (tid p : String) (cache : Cache)
    (t : String)
    (hs : (match_track_id c tid p cache).result.success = true)
    (ht : (match_track_id c tid p cache).result.target_id = some t)
    (hne : t ≠ "") :
    cacheHit (match_track_id c tid p cache).cache (p ++ ":" ++ tid) = some t := by
  rcases match_track_id_cases c tid p cache with
    ⟨cid, hch, hout⟩ | ⟨_, e, _, hout⟩ | ⟨_, title, artist, isr, e, _, _, hout⟩ |
    ⟨_, title, artist, isr, r, cand, rest, _, _, _, _, hout⟩ |
    ⟨_, title, artist, isr, r, cand, rest, t2, _, _, _, _, hout⟩ |
    ⟨_, title, artist, isr, r, _, _, _, hout⟩ |
    ⟨_, title, artist, _, hout⟩
  · rw [hout] at ht ⊢
    dsimp only at ht ⊢
    cases Option.some.inj ht
    exact hch
  · rw [hout] at hs
    simp [initResult] at hs
  · rw [hout] at hs
    simp [initResult] at hs
  · rw [hout] at hs
    simp [initResult] at hs
  · rw [hout] at ht ⊢
    dsimp only at ht ⊢
    cases Option.some.inj ht
    exact cacheHit_set_pos cache _ _ hne
  · rw [hout] at hs ht ⊢
    have hc2 := matchTrackIdMeta_success_cache c (initResult tid p) cache
      (p ++ ":" ++ tid) (targetOf p) title artist _ rfl hs
    rw [hc2, ht]
    exact cacheHit_set_pos cache _ t hne
  · rw [hout] at hs ht ⊢
    have hc2 := matchTrackIdMeta_success_cache c (initResult tid p) cache
      (p ++ ":" ++ tid) (targetOf p) title artist _ rfl hs
    rw [hc2, ht]
    exact cacheHit_set_pos cache _ t hne

/-- After a successful `match_track` run with a truthy target id, the
cache yields a hit for the key. -/
theorem match_track_success_hit (jw : PyStr → PyStr → ℚ) (c : Client)
    (url p sid : String) (cache : Cache) (t : String)
    (hs : (match_track jw c url p sid cache).result.success = true)
    (ht : (match_track jw c url p sid cache).result.target_id = some t)
    (hne : t ≠ "") :
    cacheHit (match_track jw c url p sid cache).cache (p ++ ":" ++ sid) = some t := by
  rcases match_track_cases jw c url p sid cache with
    ⟨cid, hch, hout⟩ | ⟨_, _, _, hout⟩ | ⟨_, _, e, _, hout⟩ |
    ⟨_, _, raw, e, _, _, hout⟩ | ⟨_, _, raw, title, artist, isrc, _, _, hout⟩ |
    ⟨_, _, e, _, hout⟩ | ⟨_, _, raw, _, _, hout⟩ |
    ⟨_, _, raw, e1, drest, e, _, _, _, hout⟩ |
    ⟨_, _, raw, e1, drest, title, artist, isrc, _, _, _, hout⟩
  · rw [hout] at ht ⊢
    dsimp only at ht ⊢
    cases Option.some.inj ht
    exact hch
  · rw [hout] at hs
    simp [initResultUrl] at hs
  · rw [hout] at hs
    simp [initResultUrl] at hs
  · rw [hout] at hs
    simp [initResultUrl] at hs
  · rw [hout] at hs ht ⊢
    have hc2 := matchTrackIsrc_success_cache jw c (initResultUrl url p sid) cache
      (p ++ ":" ++ sid) (targetOf p) title artist isrc _ rfl hs
    rw [hc2, ht]
    exact cacheHit_set_pos cache _ t hne
  · rw [hout] at hs
    simp [initResultUrl] at hs
  · rw [hout] at hs
    simp [initResultUrl] at hs
  · rw [hout] at hs
    simp [initResultUrl] at hs
  · rw [hout] at hs ht ⊢
    have hc2 := matchTrackIsrc_success_cache jw c (initResultUrl url p sid) cache
      (p ++ ":" ++ sid) (targetOf p) title artist isrc _ rfl hs
    rw [hc2, ht]
    exact cacheHit_set_pos cache _ t hne

/-- With a non-empty title and artist, the metadata fallback of
`match_track` always issues the metadata-search request. -/
theorem matchTrackMeta_calls_mem (jw : PyStr → PyStr → ℚ) (c : Client)
    (base : MatchResult) (cache : Cache) (ck tp : String) (t a : PyStr)
    (pre : Option String) (calls : List NetCall)
    (hta : t ≠ [] ∧ a ≠ []) :
    metaCallOf tp t a ∈ (matchTrackMeta jw c base cache ck tp t a pre calls).calls := by
  rcases matchTrackMeta_cases jw c base cache ck tp t a pre calls with
    ⟨hn, _⟩ | ⟨_, e, _, hout⟩ | ⟨_, r, b, _, _, hout⟩ | ⟨_, r, _, _, hout⟩
  · exact absurd hta hn
  · rw [hout]
    simp
  · rw [hout]
    simp
  · rw [hout]
    simp

/-- C1: the spec states that once a key is written — including the
explicit "no match" marker — subsequent calls return without any network
call.  The code writes the `None` marker (`self.cache[cache_key] = None`)
but its read guard `if cached_id:` treats `None` as a miss, so a repeated
call after a no-match re-invokes the full network path (source fetch and
metadata search) in both resolvers; demonstrated at a concrete input. -/
theorem C1_negative_cache_not_honored :
    (match_track_id noMatchClient "t1" "spotify" []).result.success = false ∧
    cacheGet (match_track_id noMatchClient "t1" "spotify" []).cache
      ("spotify" ++ ":" ++ "t1") = some none ∧
    (match_track_id noMatchClient "t1" "spotify"
      (match_track_id noMatchClient "t1" "spotify" []).cache).calls =
      [NetCall.fetchSp "t1", NetCall.metaAp [104] [97]] ∧
    (match_track (fun _ _ => 0) noMatchClient "u" "spotify" "t1"
      (match_track (fun _ _ => 0) noMatchClient "u" "spotify" "t1" []).cache).calls =
      [NetCall.fetchSp "t1", NetCall.metaAp [104] [97]] :=
  ⟨rfl, rfl, rfl, rfl⟩

/-- C6: a failure of the source fetch-and-normalize step becomes a failed
`MatchResult` carrying the failure message — not a raised exception — and
the cache is left unchanged, in both resolvers (including the malformed
Apple response with an empty `data` list). -/
theorem C6_source_failure_reported_no_cache_write :
    (∀ (c : Client) (tid p : String) (cache : Cache) (e : String),
      cacheHit cache (p ++ ":" ++ tid) = none →
      sourceExtract c tid p = .error e →
      (match_track_id c tid p cache).result.error = some e ∧
      (match_track_id c tid p cache).result.success = false ∧
      (match_track_id c tid p cache).result.target_id = none ∧
      (match_track_id c tid p cache).cache = cache) ∧
    (∀ (jw : PyStr → PyStr → ℚ) (c : Client) (url sid : String) (cache : Cache)
        (e : String),
      cacheHit cache ("spotify" ++ ":" ++ sid) = none →
      c.fetchSpotify sid = .error e →
      (match_track jw c url "spotify" sid cache).result.error =
        some ("Failed to get source metadata: " ++ e) ∧
      (match_track jw c url "spotify" sid cache).result.success = false ∧
      (match_track jw c url "spotify" sid cache).cache = cache) ∧
    (∀ (jw : PyStr → PyStr → ℚ) (c : Client) (url sid : String) (cache : Cache)
        (e : String),
      cacheHit cache ("apple_music" ++ ":" ++ sid) = none →
      c.fetchApple sid = .error e →
      (match_track jw c url "apple_music" sid cache).result.error =
        some ("Failed to get source metadata: " ++ e) ∧
      (match_track jw c url "apple_music" sid cache).result.success = false ∧
      (match_track jw c url "apple_music" sid cache).cache = cache) ∧
    (∀ (jw : PyStr → PyStr → ℚ) (c : Client) (url sid : String) (cache : Cache)
        (raw : AppleMeta),
      cacheHit cache ("apple_music" ++ ":" ++ sid) = none →
      c.fetchApple sid = .ok raw →
      raw.data = [] →
      (match_track jw c url "apple_music" sid cache).result.error =
        some "No track data found in Apple Music response" ∧
      (match_track jw c url "apple_music" sid cache).result.success = false ∧
      (match_track jw c url "apple_music" sid cache).cache = cache) := by
  refine ⟨?_, ?_, ?_, ?_⟩
  · intro c tid p cache e h1 h2
    unfold match_track_id
    dsimp only
    rw [h1]
    dsimp only
    rw [h2]
    exact ⟨rfl, rfl, rfl, rfl⟩
  · intro jw c url sid cache e h1 h2
    unfold match_track
    dsimp only
    rw [h1]
    dsimp only
    rw [if_pos rfl, h2]
    exact ⟨rfl, rfl, rfl⟩
  · intro jw c url sid cache e h1 h2
    unfold match_track
    dsimp only
    rw [h1]
    dsimp only
    rw [if_neg (by decide), if_pos rfl, h2]
    exact ⟨rfl, rfl, rfl⟩
  · intro jw c url sid cache raw h1 h2 h3
    unfold match_track
    dsimp only
    rw [h1]
    dsimp only
    rw [if_neg (by decide), if_pos rfl, h2]
    dsimp only
    rw [h3]
    exact ⟨rfl, rfl, rfl⟩

/-- Witness for C6: a client whose every call raises, at a concrete key. -/
theorem C6_witness :
    (match_track_id errClient "t" "spotify" []).result.error = some "boom" ∧
    (match_track_id errClient "t" "spotify" []).result.success = false ∧
    (match_track_id errClient "t" "spotify" []).result.target_id = none ∧
    (match_track_id errClient "t" "spotify" []).cache = [] :=
  C6_source_failure_reported_no_cache_write.1 errClient "t" "spotify" [] "boom" rfl rfl

/-- C2 counterexample: the claim says an ISRC search returning at least
one candidate is accepted unconditionally with `method_used = isrc_match`
and `success = true`.  In `match_track` the acceptance is guarded by
`if result.target_id:`, so a returned candidate whose id is the empty
string is NOT accepted — the resolver falls through to the metadata
attempt and here ends with a failed result. -/
theorem C2_counterexample :
    (match_track (fun _ _ => 0) emptyIdIsrcClient "u" "spotify" "t2" []).result.method_used ≠
      some "isrc_match" ∧
    (match_track (fun _ _ => 0) emptyIdIsrcClient "u" "spotify" "t2" []).result.success =
      false :=
  ⟨by decide, rfl⟩

/-- A cache-missing resolution of `match_track` whose source fetch and
extraction succeed reaches the ISRC attempt, for either source
platform. -/
theorem match_track_to_isrc (jw : PyStr → PyStr → ℚ) (c : Client)
    (url p sid : String) (cache : Cache) (title artist : PyStr)
    (isrc : Option String)
    (h1 : cacheHit cache (p ++ ":" ++ sid) = none)
    (hfetch : (p = "spotify" ∧ ∃ raw, c.fetchSpotify sid = .ok raw ∧
        spExtract raw = .ok (title, artist, isrc)) ∨
      (p = "apple_music" ∧ ∃ raw e1 drest, c.fetchApple sid = .ok raw ∧
        raw.data = e1 :: drest ∧ apAttrsExtract e1 = .ok (title, artist, isrc))) :
    match_track jw c url p sid cache =
      matchTrackIsrc jw c (initResultUrl url p sid) cache (p ++ ":" ++ sid)
        (targetOf p) title artist isrc [fetchCallOf p sid] := by
  rcases hfetch with ⟨hp, raw, hf, hx⟩ | ⟨hp, raw, e1, drest, hf, hd, hx⟩
  · subst hp
    unfold match_track
    dsimp only
    rw [h1]
    dsimp only
    rw [if_pos rfl, hf]
    dsimp only
    rw [hx]
    rfl
  · subst hp
    unfold match_track
    dsimp only
    rw [h1]
    dsimp only
    rw [if_neg (by decide), if_pos rfl, hf]
    dsimp only
    rw [hd]
    dsimp only
    rw [hx]
    rfl

/-- C2 amended: when the normalized source identity has an ISRC and the
target platform's ISRC search returns at least one candidate, the first
candidate is accepted without any metadata search or similarity scoring —
`method_used = isrc_match`, `success = true`, its id becomes `target_id`
and is written to the cache, and the network calls are exactly the source
fetch and the ISRC search.  In `match_track_id` this needs only that the
candidate carries an id; in `match_track` it additionally needs the id to
be non-empty (the `if result.target_id:` truthiness guard) and the fields
its success print direct-indexes (name and artist) to be present —
otherwise the resolver falls through to the metadata attempt.  Both
conjuncts cover every source platform that reaches the ISRC attempt. -/
theorem C2_isrc_first_candidate_accepted :
    (∀ (c : Client) (tid p : String) (cache : Cache) (title artist : PyStr)
        (isr : String) (r : IsrcSearchResp) (cand : IsrcCand)
        (rest : List IsrcCand) (t2 : String),
      cacheHit cache (p ++ ":" ++ tid) = none →
      sourceExtract c tid p = .ok (title, artist, some isr) →
      isrcSearchOf c (targetOf p) isr = .ok r →
      r.items = cand :: rest →
      cand.id = some t2 →
      (match_track_id c tid p cache).result.target_id = some t2 ∧
      (match_track_id c tid p cache).result.method_used = some "isrc_match" ∧
      (match_track_id c tid p cache).result.success = true ∧
      (match_track_id c tid p cache).cache =
        cacheSet cache (p ++ ":" ++ tid) (some t2) ∧
      (match_track_id c tid p cache).calls =
        [fetchCallOf p tid, isrcCallOf (targetOf p) isr]) ∧
    (∀ (jw : PyStr → PyStr → ℚ) (c : Client) (url p sid : String) (cache : Cache)
        (title artist : PyStr) (isr : String) (r : IsrcSearchResp)
        (cand : IsrcCand) (rest : List IsrcCand) (t2 : String),
      cacheHit cache (p ++ ":" ++ sid) = none →
      ((p = "spotify" ∧ ∃ raw, c.fetchSpotify sid = .ok raw ∧
          spExtract raw = .ok (title, artist, some isr)) ∨
       (p = "apple_music" ∧ ∃ raw e1 drest, c.fetchApple sid = .ok raw ∧
          raw.data = e1 :: drest ∧ apAttrsExtract e1 = .ok (title, artist, some isr))) →
      isrcSearchOf c (targetOf p) isr = .ok r →
      r.items = cand :: rest →
      cand.id = some t2 →
      cand.name ≠ none →
      cand.artistName ≠ none →
      t2 ≠ "" →
      (match_track jw c url p sid cache).result.target_id = some t2 ∧
      (match_track jw c url p sid cache).result.method_used = some "isrc_match" ∧
      (match_track jw c url p sid cache).result.success = true ∧
      (match_track jw c url p sid cache).cache =
        cacheSet cache (p ++ ":" ++ sid) (some t2) ∧
      (match_track jw c url p sid cache).calls =
        [fetchCallOf p sid, isrcCallOf (targetOf p) isr]) := by
  constructor
  · intro c tid p cache title artist isr r cand rest t2 h1 h2 h3 h4 h5
    unfold match_track_id
    dsimp only
    rw [h1]
    dsimp only
    rw [h2]
    dsimp only
    rw [h3]
    dsimp only
    rw [h4]
    dsimp only
    rw [h5]
    exact ⟨rfl, rfl, rfl, rfl, rfl⟩
  · intro jw c url p sid cache title artist isr r cand rest t2 h1 hfetch h3 h4 h5
      hn han h7
    rw [match_track_to_isrc jw c url p sid cache title artist (some isr) h1 hfetch]
    unfold matchTrackIsrc
    dsimp only
    rw [h3]
    dsimp only
    rw [h4]
    dsimp only
    rw [h5]
    dsimp only
    rw [if_neg (fun h => h.elim hn han), if_pos h7]
    exact ⟨rfl, rfl, rfl, rfl, rfl⟩

/-- Witness for the amended C2 at a concrete client, exercising both
resolvers on a Spotify source. -/
theorem C2_witness :
    (match_track_id isrcOkClient "t5" "spotify" []).result.target_id = some "ap1" ∧
    (match_track_id isrcOkClient "t5" "spotify" []).result.method_used =
      some "isrc_match" ∧
    (match_track_id isrcOkClient "t5" "spotify" []).result.success = true ∧
    (match_track_id isrcOkClient "t5" "spotify" []).cache =
      cacheSet [] ("spotify" ++ ":" ++ "t5") (some "ap1") ∧
    (match_track_id isrcOkClient "t5" "spotify" []).calls =
      [fetchCallOf "spotify" "t5", isrcCallOf (targetOf "spotify") "QQ1"] ∧
    (match_track (fun _ _ => 0) isrcOkClient "u" "spotify" "t5" []).result.method_used =
      some "isrc_match" ∧
    (match_track (fun _ _ => 0) isrcOkClient "u" "spotify" "t5" []).result.success =
      true := by
  have h1 := C2_isrc_first_candidate_accepted.1 isrcOkClient "t5" "spotify" [] [104]
    [97] "QQ1" ⟨[⟨some "ap1", some [104], some [97]⟩]⟩
    ⟨some "ap1", some [104], some [97]⟩ [] "ap1" rfl rfl rfl rfl rfl
  have h2 := C2_isrc_first_candidate_accepted.2 (fun _ _ => 0) isrcOkClient "u"
    "spotify" "t5" [] [104] [97] "QQ1" ⟨[⟨some "ap1", some [104], some [97]⟩]⟩
    ⟨some "ap1", some [104], some [97]⟩ [] "ap1" rfl
    (Or.inl ⟨rfl, stubTrackIsrc, rfl, rfl⟩) rfl rfl rfl (by decide) (by decide)
    (by decide)
  exact ⟨h1.1, h1.2.1, h1.2.2.1, h1.2.2.2.1, h1.2.2.2.2, h2.2.1, h2.2.2.1⟩

/-- C7 counterexample: in `match_track_id`, an exception of the ISRC
search propagates to the function-level handler and aborts the whole
resolution with a failed result — the metadata attempt is never made
even though title and artist are non-empty. -/
theorem C7_counterexample :
    (match_track_id isrcErrClient "t3" "spotify" []).result.success = false ∧
    (match_track_id isrcErrClient "t3" "spotify" []).result.error = some "isrc-down" ∧
    (match_track_id isrcErrClient "t3" "spotify" []).calls =
      [NetCall.fetchSp "t3", NetCall.isrcAp "QQ1"] :=
  ⟨rfl, rfl, rfl⟩

/-- C7 amended: only the URL resolver (`match_track`) routes an ISRC
search failure to the metadata attempt (its ISRC block has its own
try/except); the ID resolver (`match_track_id`) aborts: the exception
reaches the function-level handler, the call returns a failed result with
the ISRC failure message, and `search_by_metadata` is never invoked.
Both conjuncts cover every source platform that reaches the ISRC
attempt. -/
theorem C7_isrc_failure_fallback_split :
    (∀ (jw : PyStr → PyStr → ℚ) (c : Client) (url p sid : String) (cache : Cache)
        (title artist : PyStr) (isr e : String),
      cacheHit cache (p ++ ":" ++ sid) = none →
      ((p = "spotify" ∧ ∃ raw, c.fetchSpotify sid = .ok raw ∧
          spExtract raw = .ok (title, artist, some isr)) ∨
       (p = "apple_music" ∧ ∃ raw e1 drest, c.fetchApple sid = .ok raw ∧
          raw.data = e1 :: drest ∧ apAttrsExtract e1 = .ok (title, artist, some isr))) →
      isrcSearchOf c (targetOf p) isr = .error e →
      match_track jw c url p sid cache =
        matchTrackMeta jw c (initResultUrl url p sid) cache (p ++ ":" ++ sid)
          (targetOf p) title artist none
          [fetchCallOf p sid, isrcCallOf (targetOf p) isr] ∧
      (title ≠ [] ∧ artist ≠ [] →
        metaCallOf (targetOf p) title artist ∈
          (match_track jw c url p sid cache).calls)) ∧
    (∀ (c : Client) (tid p : String) (cache : Cache) (title artist : PyStr)
        (isr e : String),
      cacheHit cache (p ++ ":" ++ tid) = none →
      sourceExtract c tid p = .ok (title, artist, some isr) →
      isrcSearchOf c (targetOf p) isr = .error e →
      (match_track_id c tid p cache).result.error = some e ∧
      (match_track_id c tid p cache).result.success = false ∧
      (match_track_id c tid p cache).calls =
        [fetchCallOf p tid, isrcCallOf (targetOf p) isr]) := by
  constructor
  · intro jw c url p sid cache title artist isr e h1 hfetch h4
    have hEq : match_track jw c url p sid cache =
        matchTrackMeta jw c (initResultUrl url p sid) cache (p ++ ":" ++ sid)
          (targetOf p) title artist none
          [fetchCallOf p sid, isrcCallOf (targetOf p) isr] := by
      rw [match_track_to_isrc jw c url p sid cache title artist (some isr) h1 hfetch]
      unfold matchTrackIsrc
      dsimp only
      rw [h4]
      rfl
    refine ⟨hEq, fun hta => ?_⟩
    rw [hEq]
    exact matchTrackMeta_calls_mem jw c (initResultUrl url p sid) cache
      (p ++ ":" ++ sid) (targetOf p) title artist none _ hta
  · intro c tid p cache title artist isr e h1 h2 h3
    unfold match_track_id
    dsimp only
    rw [h1]
    dsimp only
    rw [h2]
    dsimp only
    rw [h3]
    exact ⟨rfl, rfl, rfl⟩

/-- Witness for the amended C7: a concrete failing ISRC search in the URL
resolver proceeds to the metadata search. -/
theorem C7_witness :
    (match_track (fun _ _ => 0) isrcErrClient "u" "spotify" "t3" [] =
      matchTrackMeta (fun _ _ => 0) isrcErrClient
        (initResultUrl "u" "spotify" "t3") []
        ("spotify" ++ ":" ++ "t3") (targetOf "spotify") [104] [97] none
        [fetchCallOf "spotify" "t3", isrcCallOf (targetOf "spotify") "QQ1"]) ∧
    metaCallOf (targetOf "spotify") [104] [97] ∈
      (match_track (fun _ _ => 0) isrcErrClient "u" "spotify" "t3" []).calls := by
  have h := C7_isrc_failure_fallback_split.1 (fun _ _ => 0) isrcErrClient "u"
    "spotify" "t3" [] [104] [97] "QQ1" "isrc-down" rfl
    (Or.inl ⟨rfl, stubTrackIsrc, rfl, rfl⟩) rfl
  exact ⟨h.1, h.2 (by decide)⟩

/-- C8 counterexample: the claim says any successful first resolution
makes the second call a cache hit with zero network calls.  A first call
that succeeds with the empty-string target id (accepted unconditionally
by `match_track_id`) is stored as `""`, which the cache guard
`if cached_id:` treats as a miss: the second call re-issues network
calls and does not report `method_used = cache`. -/
theorem C8_counterexample :
    (match_track_id emptyIdIsrcClient "t2" "spotify" []).result.success = true ∧
    (match_track_id emptyIdIsrcClient "t2" "spotify" []).result.target_id = some "" ∧
    (match_track_id emptyIdIsrcClient "t2" "spotify"
      (match_track_id emptyIdIsrcClient "t2" "spotify" []).cache).result.method_used ≠
      some "cache" ∧
    (match_track_id emptyIdIsrcClient "t2" "spotify"
      (match_track_id emptyIdIsrcClient "t2" "spotify" []).cache).calls ≠ [] :=
  ⟨rfl, rfl, by decide, by decide⟩

/-- C8 amended: resolving the same key twice, where the first call
succeeds with a NON-EMPTY target id, returns on the second call the same
target id with `method_used = cache`, `success = true`, and zero network
calls; in both resolvers. -/
theorem C8_idempotent_on_truthy_success :
    (∀ (c : Client) (tid p : String) (cache : Cache) (t : String),
      (match_track_id c tid p cache).result.success = true →
      (match_track_id c tid p cache).result.target_id = some t →
      t ≠ "" →
      (match_track_id c tid p (match_track_id c tid p cache).cache).result.target_id =
        some t ∧
      (match_track_id c tid p (match_track_id c tid p cache).cache).result.method_used =
        some "cache" ∧
      (match_track_id c tid p (match_track_id c tid p cache).cache).result.success =
        true ∧
      (match_track_id c tid p (match_track_id c tid p cache).cache).calls = []) ∧
    (∀ (jw : PyStr → PyStr → ℚ) (c : Client) (url p sid : String) (cache : Cache)
        (t : String),
      (match_track jw c url p sid cache).result.success = true →
      (match_track jw c url p sid cache).result.target_id = some t →
      t ≠ "" →
      (match_track jw c url p sid (match_track jw c url p sid cache).cache).result.target_id =
        some t ∧
      (match_track jw c url p sid (match_track jw c url p sid cache).cache).result.method_used =
        some "cache" ∧
      (match_track jw c url p sid (match_track jw c url p sid cache).cache).result.success =
        true ∧
      (match_track jw c url p sid (match_track jw c url p sid cache).cache).calls = []) := by
  constructor
  · intro c tid p cache t hs ht hne
    have hhit := match_track_id_success_hit c tid p cache t hs ht hne
    rw [match_track_id_cache_hit c tid p _ t hhit]
    exact ⟨rfl, rfl, rfl, rfl⟩
  · intro jw c url p sid cache t hs ht hne
    have hhit := match_track_success_hit jw c url p sid cache t hs ht hne
    rw [match_track_cache_hit jw c url p sid _ t hhit]
    exact ⟨rfl, rfl, rfl, rfl⟩

/-- Witness for the amended C8 at a concrete client whose first call
succeeds via ISRC with target id "ap1". -/
theorem C8_witness :
    (match_track_id isrcOkClient "t5" "spotify"
      (match_track_id isrcOkClient "t5" "spotify" []).cache).result.target_id =
      some "ap1" ∧
    (match_track_id isrcOkClient "t5" "spotify"
      (match_track_id isrcOkClient "t5" "spotify" []).cache).result.method_used =
      some "cache" ∧
    (match_track_id isrcOkClient "t5" "spotify"
      (match_track_id isrcOkClient "t5" "spotify" []).cache).result.success = true ∧
    (match_track_id isrcOkClient "t5" "spotify"
      (match_track_id isrcOkClient "t5" "spotify" []).cache).calls = [] :=
  C8_idempotent_on_truthy_success.1 isrcOkClient "t5" "spotify" [] "ap1" rfl rfl
    (by decide)

/-- C9 counterexample: the claim says `success = true` iff `target_id` is
present and `error` absent.  A metadata candidate read via
`track.get("id")` may carry no id; if it wins with score above 0.8 the
resolver returns `success = true` with `target_id = None` (and writes the
`None` — the negative marker — to the cache). -/
theorem C9_counterexample :
    (match_track_id noIdCandClient "t4" "spotify" []).result.success = true ∧
    (match_track_id noIdCandClient "t4" "spotify" []).result.target_id = none ∧
    (match_track_id noIdCandClient "t4" "spotify" []).result.error = none := by
  have hsc : candScore calculate_similarity [104] [97]
      (⟨none, [104], [97]⟩ : RawCand) = 1 := by
    unfold candScore
    rw [calculate_similarity_self [104] (by decide),
      calculate_similarity_self [97] (by decide)]
    norm_num
  have hfb : find_best_match calculate_similarity [104] [97]
      [(⟨none, [104], [97]⟩ : RawCand)] = some ⟨none, 1⟩ := by
    refine (find_best_match_spec calculate_similarity [104] [97] _ ?_ ⟨none, 1⟩).mpr
      ⟨0, by decide, ?_, ?_, ?_, ?_⟩
    · intro cand hcm
      rw [List.mem_singleton] at hcm
      subst hcm
      decide
    · show (⟨none, 1⟩ : BestMatch) =
        ⟨none, candScore calculate_similarity [104] [97] (⟨none, [104], [97]⟩ : RawCand)⟩
      rw [hsc]
    · show (0.8 : ℚ) <
        candScore calculate_similarity [104] [97] (⟨none, [104], [97]⟩ : RawCand)
      rw [hsc]
      norm_num
    · intro j hj hji
      exact absurd hji (Nat.not_lt_zero j)
    · intro j hj
      have hj0 : j = 0 := by
        simp only [List.length_singleton] at hj
        omega
      subst hj0
      exact le_refl _
  unfold match_track_id
  dsimp only
  rw [show cacheHit [] ("spotify" ++ ":" ++ "t4") = none from rfl]
  dsimp only
  rw [show sourceExtract noIdCandClient "t4" "spotify" =
    .ok ([104], [97], none) from rfl]
  dsimp only
  unfold matchTrackIdMeta
  rw [if_pos (by decide : ([104] : PyStr) ≠ [] ∧ ([97] : PyStr) ≠ [])]
  rw [show metaSearchOf noIdCandClient (targetOf "spotify") [104] [97] =
    .ok ⟨[⟨none, [104], [97]⟩]⟩ from rfl]
  dsimp only
  rw [hfb]
  exact ⟨rfl, rfl, rfl⟩

/-- C9 amended: `success = true` iff `target_id` is present and `error`
absent holds for every resolution in which all metadata-search candidates
carry an id (the counterexample shows a winning id-less candidate breaks
it); for both resolvers. -/
theorem C9_success_iff_target_present_error_absent :
    (∀ (c : Client) (tid p : String) (cache : Cache),
      (∀ t2 a2 r, metaSearchOf c (targetOf p) t2 a2 = .ok r →
        ∀ cand ∈ r.items, cand.id ≠ none) →
      ((match_track_id c tid p cache).result.success = true ↔
        (match_track_id c tid p cache).result.target_id ≠ none ∧
        (match_track_id c tid p cache).result.error = none)) ∧
    (∀ (jw : PyStr → PyStr → ℚ) (c : Client) (url p sid : String) (cache : Cache),
      (∀ t2 a2 r, metaSearchOf c (targetOf p) t2 a2 = .ok r →
        ∀ cand ∈ r.items, cand.id ≠ none) →
      ((match_track jw c url p sid cache).result.success = true ↔
        (match_track jw c url p sid cache).result.target_id ≠ none ∧
        (match_track jw c url p sid cache).result.error = none)) := by
  constructor
  · intro c tid p cache hwf
    rcases match_track_id_cases c tid p cache with
      ⟨cid, hch, hout⟩ | ⟨_, e, _, hout⟩ | ⟨_, title, artist, isr, e, _, _, hout⟩ |
      ⟨_, title, artist, isr, r, cand, rest, _, _, _, _, hout⟩ |
      ⟨_, title, artist, isr, r, cand, rest, t2, _, _, _, _, hout⟩ |
      ⟨_, title, artist, isr, r, _, _, _, hout⟩ |
      ⟨_, title, artist, _, hout⟩
    · rw [hout]
      simp [initResult]
    · rw [hout]
      simp [initResult]
    · rw [hout]
      simp [initResult]
    · rw [hout]
      simp [initResult]
    · rw [hout]
      simp [initResult]
    · rw [hout]
      exact matchTrackIdMeta_success_iff c (initResult tid p) cache
        (p ++ ":" ++ tid) (targetOf p) title artist _ rfl rfl hwf
    · rw [hout]
      exact matchTrackIdMeta_success_iff c (initResult tid p) cache
        (p ++ ":" ++ tid) (targetOf p) title artist _ rfl rfl hwf
  · intro jw c url p sid cache hwf
    rcases match_track_cases jw c url p sid cache with
      ⟨cid, hch, hout⟩ | ⟨_, _, _, hout⟩ | ⟨_, _, e, _, hout⟩ |
      ⟨_, _, raw, e, _, _, hout⟩ | ⟨_, _, raw, title, artist, isrc, _, _, hout⟩ |
      ⟨_, _, e, _, hout⟩ | ⟨_, _, raw, _, _, hout⟩ |
      ⟨_, _, raw, e1, drest, e, _, _, _, hout⟩ |
      ⟨_, _, raw, e1, drest, title, artist, isrc, _, _, _, hout⟩
    · rw [hout]
      simp [initResultUrl]
    · rw [hout]
      simp [initResultUrl]
    · rw [hout]
      simp [initResultUrl]
    · rw [hout]
      simp [initResultUrl]
    · rw [hout]
      exact matchTrackIsrc_success_iff jw c (initResultUrl url p sid) cache
        (p ++ ":" ++ sid) (targetOf p) title artist isrc _ rfl rfl hwf
    · rw [hout]
      simp [initResultUrl]
    · rw [hout]
      simp [initResultUrl]
    · rw [hout]
      simp [initResultUrl]
    · rw [hout]
      exact matchTrackIsrc_success_iff jw c (initResultUrl url p sid) cache
        (p ++ ":" ++ sid) (targetOf p) title artist isrc _ rfl rfl hwf

/-- Witness for the amended C9 at a client whose metadata searches return
no candidates (so every candidate vacuously carries an id). -/
theorem C9_witness :
    (match_track_id noMatchClient "t1" "spotify" []).result.success = true ↔
      (match_track_id noMatchClient "t1" "spotify" []).result.target_id ≠ none ∧
      (match_track_id noMatchClient "t1" "spotify" []).result.error = none :=
  C9_success_iff_target_present_error_absent.1 noMatchClient "t1" "spotify" []
    (by
      intro t2 a2 r h
      have h2 : (⟨[]⟩ : SearchResp) = r := Except.ok.inj h
      intro cand hc
      rw [← h2] at hc
      exact absurd hc (List.not_mem_nil cand))

/-- C10: `match_track_id` validates nothing about `source_platform`: for
any value other than `"spotify"` it sets the target platform to
`"spotify"`, fetches and normalizes the source through the Apple Music
branches, and proceeds — producing the same result (apart from the echoed
`source_platform` string) and the same network calls as an
`"apple_music"` source. -/
theorem C10_unknown_platform_treated_as_apple (c : Client) (tid p : String)
    (cache : Cache) (hp : p ≠ "spotify")
    (hc1 : cacheHit cache (p ++ ":" ++ tid) = none)
    (hc2 : cacheHit cache ("apple_music" ++ ":" ++ tid) = none) :
    (match_track_id c tid p cache).result.target_platform = "spotify" ∧
    (match_track_id c tid p cache).result =
      { (match_track_id c tid "apple_music" cache).result with source_platform := p } ∧
    (match_track_id c tid p cache).calls =
      (match_track_id c tid "apple_music" cache).calls := by
  have htp2 : targetOf p = "spotify" := by
    unfold targetOf
    rw [if_neg hp]
  have htpA : targetOf "apple_music" = "spotify" := by
    unfold targetOf
    rw [if_neg (by decide)]
  have hse : sourceExtract c tid p = sourceExtract c tid "apple_music" := by
    unfold sourceExtract
    rw [if_neg hp, if_neg (by decide)]
  have hfc : fetchCallOf p tid = fetchCallOf "apple_music" tid := by
    unfold fetchCallOf
    rw [if_neg hp, if_neg (by decide)]
  have hbase : initResult tid p =
      { initResult tid "apple_music" with source_platform := p } := by
    unfold initResult
    rw [htp2, htpA]
  unfold match_track_id
  dsimp only
  rw [hc1, hc2, hse, hbase, hfc, htp2, htpA]
  dsimp only
  cases hsx : sourceExtract c tid "apple_music" with
  | error e =>
    dsimp only
    exact ⟨htpA, rfl, rfl⟩
  | ok triple =>
    dsimp only
    obtain ⟨t, a, isrc⟩ := triple
    dsimp only
    cases isrc with
    | some isr =>
      dsimp only
      cases hisrc : isrcSearchOf c "spotify" isr with
      | error e =>
        dsimp only
        exact ⟨htpA, rfl, rfl⟩
      | ok r =>
        dsimp only
        cases hitems : r.items with
        | cons cand rest =>
          dsimp only
          cases hcid : cand.id with
          | none =>
            dsimp only
            exact ⟨htpA, rfl, rfl⟩
          | some t2 =>
            dsimp only
            exact ⟨htpA, rfl, rfl⟩
        | nil =>
          dsimp only
          have hm := matchTrackIdMeta_result_calls c (initResult tid "apple_music") p
            cache (p ++ ":" ++ tid) ("apple_music" ++ ":" ++ tid) "spotify" t a
            [fetchCallOf "apple_music" tid, isrcCallOf "spotify" isr]
          exact ⟨hm.2.2.trans htpA, hm.1, hm.2.1⟩
    | none =>
      dsimp only
      have hm := matchTrackIdMeta_result_calls c (initResult tid "apple_music") p
        cache (p ++ ":" ++ tid) ("apple_music" ++ ":" ++ tid) "spotify" t a
        [fetchCallOf "apple_music" tid]
      exact ⟨hm.2.2.trans htpA, hm.1, hm.2.1⟩

/-- Witness for C10 at a made-up platform name. -/
theorem C10_witness :
    (match_track_id errClient "t" "deezer" []).result.target_platform = "spotify" ∧
    (match_track_id errClient "t" "deezer" []).result =
      { (match_track_id errClient "t" "apple_music" []).result with
          source_platform := "deezer" } ∧
    (match_track_id errClient "t" "deezer" []).calls =
      (match_track_id errClient "t" "apple_music" []).calls :=
  C10_unknown_platform_treated_as_apple errClient "t" "deezer" [] (by decide) rfl rfl
